import Mathlib

/-!
Verification development for the NatureID species-matching pipeline.

The definitions below are a shallow embedding of the JavaScript sources
src/utils/inaturalistAPI.js and src/unnamed/part_005 (the OpenRouter
integration module).  Conventions of the embedding:

* JavaScript numbers are modelled as exact rationals.
* Possibly-missing (undefined/null) values are modelled with Option;
  JavaScript truthiness of strings (empty string is falsy) and numbers
  (0 is falsy) is modelled by dedicated helpers.
* Network requests (OpenRouter, iNaturalist) are modelled by total
  oracle functions bundled in the Net structure; one identification
  request is a pure function of those oracles.  Credential-missing
  failure paths of the HTTP helpers are outside the model (the oracles
  are total), as no claim concerns them.
* Fields of result objects that are pure display text (description,
  distribution sentences, habitat sentences, interesting facts) are not
  carried in the result records; every field inspected by control flow
  or by a claim is carried.
-/

/-- Lower-cases a string character by character, as the JavaScript
toLowerCase call does on the ASCII strings used by the program. -/
def strLower (s : String) : String := String.mk (s.toList.map Char.toLower)

/-- Char-list version of startsWith, used to build substring search. -/
def listStartsWith : List Char → List Char → Bool
  | [], _ => true
  | _ :: _, [] => false
  | p :: ps, c :: cs => p == c && listStartsWith ps cs

/-- Whether pat occurs as a contiguous sublist. -/
def hasSubList (pat : List Char) : List Char → Bool
  | [] => pat.isEmpty
  | c :: cs => listStartsWith pat (c :: cs) || hasSubList pat cs

/-- JavaScript String.prototype.includes. -/
def jsIncludes (s pat : String) : Bool := hasSubList pat.toList s.toList

/-- Truthiness of an optional string (undefined and the empty string are falsy). -/
def jsStrTruthy : Option String → Bool
  | some s => !s.isEmpty
  | none => false

/-- Truthiness of an optional number (undefined and 0 are falsy). -/
def jsNumTruthy : Option ℚ → Bool
  | some v => decide (v ≠ 0)
  | none => false

/-- JavaScript comparison x <= c where x may be undefined (undefined compares false). -/
def jsLeNum : Option ℚ → ℚ → Bool
  | some v, c => decide (v ≤ c)
  | none, _ => false

/-- JavaScript comparison x >= c where x may be undefined (undefined compares false). -/
def jsGeNum : Option ℚ → ℚ → Bool
  | some v, c => decide (c ≤ v)
  | none, _ => false

/-- JavaScript comparison x > c where x may be undefined (undefined compares false). -/
def jsGtNum : Option ℚ → ℚ → Bool
  | some v, c => decide (c < v)
  | none, _ => false

/-- JavaScript a || b for an optional string a and default b. -/
def jsOrS (a : Option String) (b : String) : String :=
  match a with
  | some s => if s.isEmpty then b else s
  | none => b

/-- Lower-cased text of an optional string, empty when absent
(the pattern summary ? summary.toLowerCase() : empty in the source). -/
def optLower : Option String → String
  | some s => strLower s
  | none => ""

/-- Optional-chaining text test: o?.toLowerCase().includes(pat)
is falsy when o is absent. -/
def optIncludesLower (o : Option String) (pat : String) : Bool :=
  match o with
  | some s => jsIncludes (strLower s) pat
  | none => false

/-- Final clamping Math.min(1, Math.max(0, score)) of the match score. -/
def clamp01 (x : ℚ) : ℚ := min 1 (max 0 x)

/-- Stable insertion used by the descending sort: the new element goes in
front of the first strictly smaller key, after equal keys (JavaScript
Array.prototype.sort with comparator (a, b) =&gt; key b - key a is stable). -/
def insertDescBy (key : α → ℚ) (x : α) : List α → List α
  | [] => [x]
  | y :: ys => if key y < key x then x :: y :: ys else y :: insertDescBy key x ys

/-- Stable sort, descending by the given rational key. -/
def sortDescBy (key : α → ℚ) (l : List α) : List α :=
  l.foldl (fun acc x => insertDescBy key x acc) []

/-- Geographic coordinates; observation geojson stores them as a
longitude-latitude pair, carried here as named fields. -/
structure Coords where
  lat : ℚ
  lng : ℚ
deriving DecidableEq

/-- Location supplied with an identification request. -/
structure LocationData where
  coords : Option Coords
  name : Option String
deriving DecidableEq

/-- One recorded sighting; only the geo data influences control flow. -/
structure Observation where
  geojson : Option Coords
deriving DecidableEq

/-- Place object of an establishment-means record. -/
structure EstablishmentPlace where
  name : Option String
deriving DecidableEq

/-- Establishment metadata of a taxon (native or introduced, with place). -/
structure EstablishmentMeans where
  establishment_means : String
  place : Option EstablishmentPlace
deriving DecidableEq

/-- Taxon record of the observation database, with the fields the
pipeline reads.  Ancestors are carried by name (the source reads only
ancestor.name, defaulting to the empty string). -/
structure Taxon where
  id : ℕ
  name : Option String
  preferred_common_name : Option String
  wikipedia_summary : Option String
  iconic_taxon_name : Option String
  rank : Option String
  rank_level : Option ℚ
  establishment_means : Option EstablishmentMeans
  tag_list : List String
  ancestors : List String
deriving DecidableEq

/-- Visual feature lists extracted by the AI. -/
structure VisualFeatures where
  colors : Option (List String)
  patterns : Option (List String)
  structures : Option (List String)
  distinctiveFeatures : Option (List String)
deriving DecidableEq

/-- Direct species or genus guess by the AI; empty strings model
absent sub-fields. -/
structure SpecificIdentification where
  mostSpecificTaxon : String
  taxonomicLevel : String
  scientificName : String
deriving DecidableEq

/-- Amazonian species guesses by the AI. -/
structure AmazonianSpeciesMatch where
  possibleSpecies : Option (List String)
deriving DecidableEq

/-- Normalized feature record produced by the AI feature extraction.
Taxonomic hints are carried as their list of values (the source converts
object-form hints to exactly that list before matching). -/
structure Features where
  category : Option String
  visualFeatures : Option VisualFeatures
  taxonomicHints : Option (List String)
  specificIdentification : Option SpecificIdentification
  amazonianSpeciesMatch : Option AmazonianSpeciesMatch
  searchTerms : Option (List String)
  confidence : Option ℚ
deriving DecidableEq

/-- Geographic data computed by getTaxonGeographicData (reference photo
list omitted: pure display data). -/
structure GeoData where
  taxon_id : ℕ
  scientific_name : String
  common_name : String
  regions : List String
  mainHabitat : String
  density : List (String × ℚ)
  nativeRegions : List String
  introducedRegions : List String
  observationPoints : List Coords
deriving DecidableEq

/-- Scoring unit of the candidate matcher. -/
structure CandidateMatch where
  taxon : Taxon
  observations : List Observation
  matchScore : ℚ
deriving DecidableEq

/-- Response shape of searchObservationsByFeatures (the echoed query
object is omitted: it is a pure display copy of the inputs). -/
structure SearchResponse where
  results : List CandidateMatch
  totalMatches : ℕ
deriving DecidableEq

/-- Amazon-basin bounding box test (isInAmazon in inaturalistAPI.js,
lines 510-513). -/
def isInAmazon (lat lng : ℚ) : Bool :=
  decide (-(19/2) ≤ lat) && decide (lat ≤ 5) && decide (-79 ≤ lng) && decide (lng ≤ -50)

/-- Whether an observation has coordinates inside the Amazon box
(the obs.geojson guard followed by isInAmazon on its coordinates). -/
def obsInAmazon (o : Observation) : Bool :=
  match o.geojson with
  | some c => isInAmazon c.lat c.lng
  | none => false

/-- Factor 1 of calculateMatchScore (lines 353-371): local-observation
bonus capped at 0.4 plus the 0.25 same-bioregion bonus. -/
def geoBonus (location : Option LocationData) (observations : List Observation) : ℚ :=
  match location with
  | some loc =>
    if observations.length > 0 then
      min (2/5) ((observations.length : ℚ) * (1/20)) +
        (match loc.coords with
         | some c =>
           if isInAmazon c.lat c.lng && observations.any obsInAmazon then 1/4 else 0
         | none => 0)
    else 0
  | none => 0

/-- Factor 2 of calculateMatchScore (lines 373-382): the plant/animal
category bonus of 0.15. -/
def categoryBonus (iconic category : Option String) : ℚ :=
  if jsStrTruthy iconic && jsStrTruthy category then
    let taxonCategory := optLower iconic
    let featureCategory := optLower category
    if (taxonCategory == "plantae" && featureCategory == "plant") ||
       (!(taxonCategory == "plantae") && featureCategory == "animal") then 3/20 else 0
  else 0

/-- Combined searchable text of a taxon as built inside the scoring
function (summary, name, common name, lower-cased, space separated). -/
def scoreAllText (t : Taxon) : String :=
  optLower t.wikipedia_summary ++ " " ++ optLower t.name ++ " " ++ optLower t.preferred_common_name

/-- Factor 3 of calculateMatchScore (lines 384-439): visual match bonus
capped at 0.4 minus mismatch penalty capped at 0.7. -/
def visualAdjust (features : Features) (t : Taxon) : ℚ :=
  match features.visualFeatures with
  | some v =>
    let allText := scoreAllText t
    let colorMatches : ℕ :=
      match v.colors with
      | some cs => if cs.length > 0 then 2 * cs.countP (fun c => jsIncludes allText (strLower c)) else 0
      | none => 0
    let colorMisses : ℕ :=
      match v.colors with
      | some cs =>
        if cs.length > 0 then
          if !cs.any (fun c => jsIncludes allText (strLower c)) && cs.length > 1 then 5 else 0
        else 0
      | none => 0
    let patternMatches : ℕ :=
      match v.patterns with
      | some ps => ps.countP (fun p => jsIncludes allText (strLower p))
      | none => 0
    let featMatches : ℕ :=
      match v.distinctiveFeatures with
      | some ds => 2 * ds.countP (fun d => jsIncludes allText (strLower d))
      | none => 0
    let featMisses : ℕ :=
      match v.distinctiveFeatures with
      | some ds => ds.countP (fun d => !jsIncludes allText (strLower d))
      | none => 0
    let visualMatchCount : ℕ := colorMatches + patternMatches + featMatches
    let visualMismatchCount : ℕ := colorMisses + featMisses
    min (2/5) ((visualMatchCount : ℚ) * (1/10)) - min (7/10) ((visualMismatchCount : ℚ) * (3/20))
  | none => 0

/-- Factor 4 of calculateMatchScore (lines 441-467): rank-level
adjustment plus the binomial-name bonus, both behind the rank_level
truthiness guard. -/
def rankAdjust (t : Taxon) : ℚ :=
  if jsNumTruthy t.rank_level then
    (match t.rank_level with
     | some r =>
       if r ≤ 30 then -(2/5)
       else if r ≤ 40 then -(1/5)
       else if 70 ≤ r then 1/2
       else if 60 ≤ r then 3/10
       else if 50 ≤ r then 3/20
       else 0
     | none => 0) +
    (if jsStrTruthy t.name && jsIncludes (jsOrS t.name "") " " then 1/5 else 0)
  else 0

/-- Accumulated score before the severe-genericity override: base 0.3
plus factors 1 through 4. -/
def preOverrideScore (t : Taxon) (observations : List Observation)
    (features : Features) (location : Option LocationData) : ℚ :=
  3/10 + geoBonus location observations + categoryBonus t.iconic_taxon_name features.category +
    visualAdjust features t + rankAdjust t

/-- Detailed-visual condition of the severe-genericity override:
more than one color, or at least one pattern (lines 472-474). -/
def hasDetailedVisuals (features : Features) : Bool :=
  match features.visualFeatures with
  | some v =>
    (match v.colors with
     | some cs => cs.length > 1
     | none => false) ||
    (match v.patterns with
     | some ps => ps.length > 0
     | none => false)
  | none => false

/-- Severe-genericity override (lines 470-482): subtract 0.9 at rank
level at most 30, or 0.8 at rank level at most 40, flooring at 0, when
detailed visual features are available. -/
def severeGenericityOverride (t : Taxon) (features : Features) (score : ℚ) : ℚ :=
  if jsLeNum t.rank_level 30 && hasDetailedVisuals features then
    max 0 (score - 9/10)
  else if jsLeNum t.rank_level 40 && hasDetailedVisuals features then
    max 0 (score - 8/10)
  else score

/-- Region-mismatch penalty (lines 484-504): subtract 0.7 for a
family-or-more-specific taxon with no Amazon affinity and no Amazon
observations when the photo location is in the Amazon. -/
def regionMismatchPenalty (t : Taxon) (observations : List Observation)
    (location : Option LocationData) (score : ℚ) : ℚ :=
  match location with
  | some loc =>
    match loc.coords with
    | some c =>
      let isLocationAmazon := isInAmazon c.lat c.lng
      let isAmazonianTaxon := jsStrTruthy t.name &&
        (optIncludesLower t.wikipedia_summary "amazon" ||
         optIncludesLower t.preferred_common_name "amazon")
      if isLocationAmazon && !isAmazonianTaxon && jsGeNum t.rank_level 50 then
        if !observations.any obsInAmazon then score - 7/10 else score
      else score
    | none => score
  | none => score

/-- calculateMatchScore (inaturalistAPI.js lines 350-507): base score,
four factors, severe-genericity override, region penalty, final clamp
to the unit interval. -/
def calculateMatchScore (t : Taxon) (observations : List Observation)
    (features : Features) (location : Option LocationData) : ℚ :=
  clamp01 (regionMismatchPenalty t observations location
    (severeGenericityOverride t features
      (preOverrideScore t observations features location)))

/-- Basic color table of the primary-color extraction (one pattern list
per emitted color; grey and gray both emit gray). -/
def primaryColorTable : List (List String × String) :=
  [(["black"], "black"), (["white"], "white"), (["red"], "red"), (["blue"], "blue"),
   (["green"], "green"), (["yellow"], "yellow"), (["orange"], "orange"),
   (["brown"], "brown"), (["grey", "gray"], "gray"), (["purple"], "purple"),
   (["metallic"], "metallic")]

/-- Primary colors extracted from the feature colors (inaturalistAPI.js
lines 77-94 and the identical block in part_005 lines 788-805): for each
given color, every basic color word it contains is appended, in table
order. -/
def extractPrimaryColors (features : Features) : List String :=
  match features.visualFeatures with
  | some v =>
    match v.colors with
    | some cs =>
      cs.flatMap (fun c =>
        primaryColorTable.filterMap (fun pc =>
          if pc.1.any (fun p => jsIncludes (strLower c) p) then some pc.2 else none))
    | none => []
  | none => []

/-- Insect test of the beetle heuristic (lines 528-539): category is
insect, or some taxonomic hint mentions insect, beetle or coleoptera. -/
def isInsectLike (features : Features) : Bool :=
  features.category == some "insect" ||
    (match features.taxonomicHints with
     | some hs => hs.any (fun h =>
         jsIncludes (strLower h) "insect" || jsIncludes (strLower h) "beetle" ||
         jsIncludes (strLower h) "coleoptera")
     | none => false)

/-- Joined lower-cased visual description used by the beetle heuristic
(colors, patterns, structures and distinctive features, space joined). -/
def visualDescriptionOf (features : Features) : String :=
  let v := features.visualFeatures
  let get (f : VisualFeatures → Option (List String)) : List String :=
    match v with
    | some vf => (f vf).getD []
    | none => []
  String.intercalate " "
    ((get VisualFeatures.colors ++ get VisualFeatures.patterns ++
      get VisualFeatures.structures ++ get VisualFeatures.distinctiveFeatures).map strLower)

/-- checkForKnownAmazonianBeetles (inaturalistAPI.js lines 516-598):
keyword rules mapping visual descriptions to known species, gated by the
Amazon box when a location is supplied and by the insect test. -/
def checkForKnownAmazonianBeetles (features : Features) (location : Option LocationData) :
    List String :=
  let isAmazonian :=
    match location with
    | some loc =>
      match loc.coords with
      | some c => isInAmazon c.lat c.lng
      | none => false
    | none => false
  if !isAmazonian && location.isSome then []
  else if !isInsectLike features then []
  else
    let vd := visualDescriptionOf features
    let has (w : String) : Bool := jsIncludes vd w
    (if has "metallic" && (has "green" || has "blue" || has "bronze") &&
        (has "horn" || has "pronotum" || has "abdomen") then ["Phanaeus lancifer"] else []) ++
    (if (has "horn" || has "rhinoceros") && has "large" &&
        (has "black" || has "brown") then ["Dynastes hercules"] else []) ++
    (if has "horn" && (has "pronotum" || has "thorax") &&
        (has "black" || has "brown") then ["Megasoma actaeon"] else []) ++
    (if has "large" && (has "titan" || has "gigant") &&
        (has "brown" || has "mandible") then ["Titanus giganteus"] else []) ++
    (if (has "snout" || has "rostrum") && has "elongated" then ["Curculionidae"] else []) ++
    (if (has "long antennae" || has "longhorn") &&
        (has "cylindrical" || has "elongated") then ["Cerambycidae"] else [])

/-- Identifier of one of the two OpenRouter models of the cascade. -/
inductive ModelId
  | primary
  | backup
deriving DecidableEq

/-- Candidate-list entry of the user-facing suggestions table. -/
structure Suggestion where
  name : String
  scientificName : String
  taxonomicLevel : String
  rankLevel : ℚ
  confidence : ℚ
  observations : ℕ
  iNaturalistTaxonId : ℕ
deriving DecidableEq

/-- Final identification payload; display-prose fields are omitted, the
errorNote field carries the additionalInfo.error message of error-shaped
results and modelUsed carries additionalInfo.modelUsed. -/
structure IdentResult where
  category : String
  name : String
  scientificName : String
  taxonomicLevel : String
  confidence : ℚ
  status : Option String
  geographicData : Option GeoData
  suggestions : List Suggestion
  featuresUsed : Option Features
  modelUsed : Option ModelId
  errorNote : Option String
deriving DecidableEq

/-- JavaScript exceptions that the embedding tracks. -/
inductive JsError
  | referenceError
  | parseError
  | taxonNotFound
  | upstreamError (status : ℕ)
deriving DecidableEq

/-- Error field of a parsed OpenRouter response body. -/
structure ApiError where
  code : Option ℕ
  message : String

/-- Parse result of the JSON object found inside the model message
content (first opening brace to last closing brace). -/
inductive ContentJson
  | featureX (f : Features)
  | identJson (r : IdentResult)
  | otherJson

/-- Message content of an OpenRouter response: the raw text together
with the parse of the JSON object found inside it, if any. -/
structure ContentVal where
  raw : String
  json : Option ContentJson

/-- Parsed OpenRouter response body: optional error field, whether a
choices array with a message is present, and its content (none models
both a missing and an empty content string). -/
structure ApiData where
  error : Option ApiError
  hasChoices : Bool
  content : Option ContentVal

/-- One HTTP response of the OpenRouter endpoint: status, whether the
body text parses as JSON, the parsed body, and the raw body text. -/
structure AIResponse where
  status : ℕ
  parseOk : Bool
  data : ApiData
  raw : String

/-- Observation query issued to the observation database: the fixed
Amazon bounding box, a radius search, or a plain per-taxon listing. -/
inductive ObsQuery
  | bbox (taxonId : ℕ) (swlat swlng nelat nelng : ℚ) (perPage : ℕ)
  | radius (taxonId : ℕ) (lat lng radiusDeg : ℚ) (perPage : ℕ)
  | plain (taxonId : ℕ) (perPage : ℕ)
deriving DecidableEq

/-- Oracles for the two remote services; one identification request is a
pure function of these. -/
structure Net where
  respond : ModelId → AIResponse
  searchTaxa : String → ℕ → List Taxon
  fetchObs : ObsQuery → List Observation
  taxonById : ℕ → Option Taxon
  taxonByName : String → Option Taxon
  hasInatToken : Bool

/-- getNearbyObservationsForTaxon (inaturalistAPI.js lines 264-340):
inside the Amazon the fixed basin bounding box is queried, elsewhere the
radius is converted to degrees at 111 km per degree. -/
def getNearbyObservationsForTaxon (net : Net) (taxonId : ℕ) (lat lng radiusKm : ℚ) :
    List Observation :=
  if isInAmazon lat lng then
    net.fetchObs (ObsQuery.bbox taxonId (-10) (-80) 5 (-50) 30)
  else
    net.fetchObs (ObsQuery.radius taxonId lat lng (radiusKm / 111) 30)

/-- getObservationsByTaxon (lines 685-727) as seen by the matcher. -/
def getObservationsByTaxon (net : Net) (taxonId : ℕ) (perPage : ℕ) : List Observation :=
  net.fetchObs (ObsQuery.plain taxonId perPage)

/-- Region search text chosen from the location (searchObservations-
ByFeatures lines 100-113): Amazon, Atlantic Forest and Cerrado boxes in
that order, else no region refinement. -/
def regionPrefFor (location : Option LocationData) : String :=
  match location with
  | some loc =>
    match loc.coords with
    | some c =>
      if isInAmazon c.lat c.lng then "amazônia "
      else if decide (-30 ≤ c.lat) && decide (c.lat ≤ -5) &&
              decide (-55 ≤ c.lng) && decide (c.lng ≤ -35) then "mata atlântica "
      else if decide (-24 ≤ c.lat) && decide (c.lat ≤ -5) &&
              decide (-60 ≤ c.lng) && decide (c.lng ≤ -42) then "cerrado "
      else ""
    | none => ""
  | none => ""

/-- Search queries from a term list (lines 116-141): for each of the
first limit terms, the region-refined query first when a region text is
available, then the plain query. -/
def buildQueries (regionPref : String) (terms : Option (List String)) (limit : ℕ) :
    List String :=
  match terms with
  | some ts =>
    if ts.length > 0 then
      (ts.take limit).flatMap (fun t =>
        (if !regionPref.isEmpty then [regionPref ++ t] else []) ++ [t])
    else []
  | none => []

/-- Dedup step for the beetle phase: new taxa are unshifted to the
front of the accumulator (lines 151-169). -/
def dedupUnshift (st : List ℕ × List Taxon) (t : Taxon) : List ℕ × List Taxon :=
  if st.1.contains t.id then st else (t.id :: st.1, t :: st.2)

/-- Dedup step for the general phase: new taxa are pushed to the back
of the accumulator (lines 171-176). -/
def dedupPush (st : List ℕ × List Taxon) (t : Taxon) : List ℕ × List Taxon :=
  if st.1.contains t.id then st else (t.id :: st.1, st.2 ++ [t])

/-- Merged, deduplicated taxon pool of searchObservationsByFeatures:
known-beetle results first (each unshifted), then the flattened search
results in issue order. -/
def dedupedTaxa (net : Net) (features : Features) (location : Option LocationData) :
    List Taxon :=
  let amazonBeetles := checkForKnownAmazonianBeetles features location
  let regionPref := regionPrefFor location
  let queries := buildQueries regionPref features.searchTerms 3 ++
    buildQueries regionPref features.taxonomicHints 2
  let searchResults := (queries.map (fun q => net.searchTaxa q 5)).flatten
  let afterBeetles := amazonBeetles.foldl
    (fun st name => (net.searchTaxa name 3).foldl dedupUnshift st) ([], [])
  (searchResults.foldl dedupPush afterBeetles).2

/-- Scored candidate list of searchObservationsByFeatures before
filtering (lines 178-210): first 20 deduplicated taxa, observations
fetched nearby when a location with coordinates is present, match score
from the full observation list, observations capped to 5 in the record,
sorted by score descending (stable). -/
def scoredCandidates (net : Net) (features : Features) (location : Option LocationData) :
    List CandidateMatch :=
  let withObs := ((dedupedTaxa net features location).take 20).map (fun t =>
    let observations :=
      match location with
      | some loc =>
        match loc.coords with
        | some c => getNearbyObservationsForTaxon net t.id c.lat c.lng 100
        | none => getObservationsByTaxon net t.id 10
      | none => getObservationsByTaxon net t.id 10
    { taxon := t, observations := observations.take 5,
      matchScore := calculateMatchScore t observations features location })
  sortDescBy CandidateMatch.matchScore withObs

/-- Keep test of the final filter (lines 213-232): drop scores below
0.1; with more than one extracted primary color, drop candidates whose
combined text mentions none of them. -/
def candidateKeepFilter (primaryColors : List String) (item : CandidateMatch) : Bool :=
  if decide (item.matchScore < 1/10) then false
  else if primaryColors.length > 0 then
    let allText := optLower item.taxon.name ++ " " ++
      optLower item.taxon.preferred_common_name ++ " " ++ optLower item.taxon.wikipedia_summary
    let colorMatch := primaryColors.any (fun c => jsIncludes allText c)
    if !colorMatch && primaryColors.length > 1 then false else true
  else true

/-- searchObservationsByFeatures (inaturalistAPI.js lines 65-254):
scored candidates, filtered; when the filter empties the list the
unfiltered sorted list is returned. -/
def searchObservationsByFeatures (net : Net) (features : Features)
    (location : Option LocationData) : SearchResponse :=
  let sorted := scoredCandidates net features location
  let filteredResults := sorted.filter (candidateKeepFilter (extractPrimaryColors features))
  { results := if filteredResults.length > 0 then filteredResults else sorted,
    totalMatches := if filteredResults.length > 0 then filteredResults.length else sorted.length }

/-- determineRegionFromCoordinates (lines 859-878): continent buckets
from coordinate rectangles, none when no rectangle matches. -/
def determineRegionFromCoordinates (latitude longitude : ℚ) : Option String :=
  if decide (15 ≤ latitude) && decide (latitude ≤ 75) &&
     decide (-170 ≤ longitude) && decide (longitude ≤ -50) then some "North America"
  else if decide (latitude ≤ 15) && decide (-55 ≤ latitude) &&
     decide (-80 ≤ longitude) && decide (longitude ≤ -35) then some "South America"
  else if decide (35 ≤ latitude) && decide (latitude ≤ 70) &&
     decide (-10 ≤ longitude) && decide (longitude ≤ 40) then some "Europe"
  else if decide (-35 ≤ latitude) && decide (latitude ≤ 37) &&
     decide (-20 ≤ longitude) && decide (longitude ≤ 60) then some "Africa"
  else if decide (-10 ≤ latitude) && decide (latitude ≤ 55) &&
     decide (60 ≤ longitude) && decide (longitude ≤ 150) then some "Asia"
  else if decide (latitude ≤ -10) && decide (-45 ≤ latitude) &&
     decide (110 ≤ longitude) && decide (longitude ≤ 180) then some "Australia"
  else if decide (latitude ≤ -60) then some "Antarctica"
  else none

/-- mapPlaceToRegion (lines 885-915): keyword scan of the place name. -/
def mapPlaceToRegion (place : EstablishmentPlace) : String :=
  let p := optLower place.name
  if jsIncludes p "north america" || jsIncludes p "usa" || jsIncludes p "canada" ||
     jsIncludes p "mexico" then "North America"
  else if jsIncludes p "south america" || jsIncludes p "brazil" ||
     jsIncludes p "argentina" then "South America"
  else if jsIncludes p "europe" then "Europe"
  else if jsIncludes p "africa" then "Africa"
  else if jsIncludes p "asia" || jsIncludes p "china" || jsIncludes p "india" ||
     jsIncludes p "japan" then "Asia"
  else if jsIncludes p "australia" || jsIncludes p "oceania" then "Australia"
  else if jsIncludes p "antarctica" then "Antarctica"
  else "Unknown"

/-- Habitat keyword table of determineHabitatFromTaxonData. -/
def habitatTypes : List String :=
  ["Desert", "Tropical", "Temperate", "Arctic", "Mountainous", "Coastal", "Oceanic",
   "Forest", "Grassland", "Wetland", "Freshwater", "Marine", "Urban", "Agricultural"]

/-- determineHabitatFromTaxonData (lines 922-964): tags first, then the
summary, then ancestor names. -/
def determineHabitatFromTaxonData (taxonData : Taxon) : String :=
  let ws := optLower taxonData.wikipedia_summary
  match taxonData.tag_list.findSome? (fun tag =>
      habitatTypes.find? (fun h => jsIncludes (strLower tag) (strLower h))) with
  | some h => h
  | none =>
    match habitatTypes.find? (fun h => jsIncludes ws (strLower h)) with
    | some h => h
    | none =>
      match taxonData.ancestors.findSome? (fun a =>
          let nm := strLower a
          if jsIncludes nm "marine" || jsIncludes nm "aquatic" then some "Oceanic"
          else if jsIncludes nm "forest" then some "Forest"
          else none) with
      | some h => h
      | none => "Unknown"

/-- One step of the regionCounts accumulation: increment an existing
region entry in place, or append a new entry with count 1 (the JS object
update regionCounts[region] = (regionCounts[region] || 0) + 1 with
object-key insertion order). -/
def addRegionCount : List (String × ℕ) → String → List (String × ℕ)
  | [], r => [(r, 1)]
  | (s, c) :: rest, r =>
    if s == r then (s, c + 1) :: rest else (s, c) :: addRegionCount rest r

/-- Region histogram of an observation list (getTaxonGeographicData
lines 778-789): observations without coordinates or outside every
continent rectangle are skipped. -/
def geoRegionCounts (observations : List Observation) : List (String × ℕ) :=
  observations.foldl (fun acc o =>
    match o.geojson with
    | some c =>
      match determineRegionFromCoordinates c.lat c.lng with
      | some r => addRegionCount acc r
      | none => acc
    | none => acc) []

/-- Density list of the histogram (lines 791-797): each count divided by
the total of all counts. -/
def geoDensities (regionCounts : List (String × ℕ)) : List (String × ℚ) :=
  let total : ℚ := ((regionCounts.map Prod.snd).sum : ℕ)
  regionCounts.map (fun p => (p.1, (p.2 : ℚ) / total))

/-- getTaxonGeographicData (inaturalistAPI.js lines 734-851): taxon
lookup, observation listing, establishment metadata, and the density
histogram classification when no native region came from metadata. -/
def getTaxonGeographicData (net : Net) (taxonId : ℕ) : Except JsError GeoData :=
  match net.taxonById taxonId with
  | none => Except.error JsError.taxonNotFound
  | some taxonData =>
    let observations := getObservationsByTaxon net taxonId 100
    let observationPoints := observations.filterMap Observation.geojson
    let nativeRegions0 : List String :=
      match taxonData.establishment_means with
      | some em =>
        if em.establishment_means == "native" then
          match em.place with
          | some p => [mapPlaceToRegion p]
          | none => []
        else []
      | none => []
    let introducedRegions0 : List String :=
      match taxonData.establishment_means with
      | some em =>
        if em.establishment_means == "introduced" then
          match em.place with
          | some p => [mapPlaceToRegion p]
          | none => []
        else []
      | none => []
    if nativeRegions0.isEmpty && observations.length > 0 then
      let densities := geoDensities (geoRegionCounts observations)
      let sortedRegions := sortDescBy Prod.snd densities
      let nativeRegions := nativeRegions0 ++
        (match sortedRegions with
         | [] => []
         | top :: rest => top.1 :: (rest.filter (fun p => decide (p.2 > 3/20))).map Prod.fst)
      let introducedRegions := introducedRegions0 ++
        (match sortedRegions with
         | [] => []
         | _ :: rest =>
           (rest.filter (fun p => !decide (p.2 > 3/20) && decide (p.2 > 1/20))).map Prod.fst)
      Except.ok
        { taxon_id := taxonId,
          scientific_name := jsOrS taxonData.name "",
          common_name := jsOrS taxonData.preferred_common_name "",
          regions := densities.map Prod.fst,
          mainHabitat := determineHabitatFromTaxonData taxonData,
          density := densities,
          nativeRegions := nativeRegions,
          introducedRegions := introducedRegions,
          observationPoints := observationPoints }
    else
      Except.ok
        { taxon_id := taxonId,
          scientific_name := jsOrS taxonData.name "",
          common_name := jsOrS taxonData.preferred_common_name "",
          regions := ["Not available"],
          mainHabitat := "Unknown",
          density := [],
          nativeRegions := [],
          introducedRegions := [],
          observationPoints := observationPoints }

/-- getCategory (part_005 lines 25-35): coarse category from the iconic
taxon name. -/
def getCategory (taxon : Option Taxon) : String :=
  match taxon with
  | none => "Unknown"
  | some t =>
    if !jsStrTruthy t.iconic_taxon_name then "Unknown"
    else
      let iconicName := optLower t.iconic_taxon_name
      if iconicName == "plantae" then "plant"
      else if ["animalia", "actinopterygii", "amphibia", "arachnida", "aves",
               "mammalia", "reptilia"].contains iconicName then "animal"
      else if iconicName == "fungi" then "fungus"
      else "other"

/-- Rectangular latitude/longitude region used by the classifier. -/
structure RegionBox where
  latMin : ℚ
  latMax : ℚ
  lngMin : ℚ
  lngMax : ℚ
deriving DecidableEq

/-- Containment in a region box (all comparisons inclusive, as the
source writes lat >= min and lat <= max and likewise for longitude). -/
def inBox (lat lng : ℚ) (b : RegionBox) : Bool :=
  decide (b.latMin ≤ lat) && decide (lat ≤ b.latMax) &&
    decide (b.lngMin ≤ lng) && decide (lng ≤ b.lngMax)

/-- Named boxes of the region classifier chain in formatLocationMatch
(part_005 lines 181-209), in source order: the five biome boxes first,
then the six continent boxes of the fallback chain. -/
def regionBoxes : List (String × RegionBox) :=
  [("the Amazon rainforest", { latMin := -(19/2), latMax := 5, lngMin := -79, lngMax := -50 }),
   ("the Atlantic Forest (Mata Atlântica)",
      { latMin := -30, latMax := -5, lngMin := -55, lngMax := -35 }),
   ("the Cerrado savanna", { latMin := -24, latMax := -5, lngMin := -60, lngMax := -42 }),
   ("the Pantanal wetlands", { latMin := -20, latMax := -15, lngMin := -58, lngMax := -54 }),
   ("the Caatinga dry forest", { latMin := -15, latMax := -3, lngMin := -45, lngMax := -37 }),
   ("North America", { latMin := 15, latMax := 75, lngMin := -170, lngMax := -50 }),
   ("South America", { latMin := -55, latMax := 15, lngMin := -80, lngMax := -35 }),
   ("Europe", { latMin := 35, latMax := 70, lngMin := -10, lngMax := 40 }),
   ("Africa", { latMin := -35, latMax := 37, lngMin := -20, lngMax := 60 }),
   ("Asia", { latMin := -10, latMax := 55, lngMin := 60, lngMax := 150 }),
   ("Australia", { latMin := -45, latMax := -10, lngMin := 110, lngMax := 180 })]

/-- Region classification of formatLocationMatch: first box of the
ordered table containing the point wins, default is the source text
for an unrecognized region. -/
def classifyRegion (lat lng : ℚ) : String :=
  match regionBoxes.find? (fun nb => inBox lat lng nb.2) with
  | some nb => nb.1
  | none => "this region"

/-- Feature preprocessing of identifyWithOpenRouter before the database
search (part_005 lines 660-739): priority search terms from the specific
identification and the Amazonian species guesses, then region search
terms appended from the location. -/
def preprocessFeatures (features0 : Features) (locationData : Option LocationData) :
    Features :=
  let features1 :=
    match features0.specificIdentification with
    | some si =>
      if !si.mostSpecificTaxon.isEmpty then
        let ts := (features0.searchTerms).getD []
        let ts := si.mostSpecificTaxon :: ts
        let ts := if !si.scientificName.isEmpty then si.scientificName :: ts else ts
        { features0 with searchTerms := some ts }
      else features0
    | none => features0
  let features2 :=
    match features1.amazonianSpeciesMatch with
    | some am =>
      match am.possibleSpecies with
      | some ps =>
        let amazonSpecies := ps.filter (fun s => !s.isEmpty)
        if amazonSpecies.length > 0 then
          { features1 with searchTerms := some (amazonSpecies ++ (features1.searchTerms).getD []) }
        else features1
      | none => features1
    | none => features1
  match locationData with
  | some loc =>
    match loc.coords with
    | some c =>
      match features2.searchTerms with
      | some ts =>
        let ts := match loc.name with
          | some nm => if !nm.isEmpty then ts ++ [nm] else ts
          | none => ts
        let hintsMention (kw : String) : Bool :=
          match features2.taxonomicHints with
          | some hs => hs.any (fun h => jsIncludes (strLower h) kw)
          | none => false
        let ts :=
          if isInAmazon c.lat c.lng then
            let ts := ts ++ ["amazon", "amazonia", "amazonian", "rainforest"]
            if features2.category == some "insect" || hintsMention "insect" then
              ts ++ ["amazon insect", "amazonian beetle", "amazon beetle",
                     "coleoptera amazonia", "scarabaeidae", "cerambycidae", "dynastinae",
                     "buprestidae", "insetos da amazônia"]
            else if features2.category == some "plant" || hintsMention "plant" then
              ts ++ ["amazon flora", "amazonian plant", "rainforest plant",
                     "plantas da amazonia"]
            else ts
          else if decide (-30 ≤ c.lat) && decide (c.lat ≤ -5) &&
                  decide (-55 ≤ c.lng) && decide (c.lng ≤ -35) then
            ts ++ ["atlantic forest", "mata atlantica"]
          else ts
        { features2 with searchTerms := some ts }
      | none => features2
    | none => features2
  | none => features2

/-- Rank-tier preference (part_005 lines 830-847): restrict to the
species tier, else the genus tier, else the family tier, whichever first
has at least 3 members, else keep the list. -/
def applyRankTierFilter (l : List CandidateMatch) : List CandidateMatch :=
  let speciesMatches := l.filter (fun m => jsGeNum m.taxon.rank_level 70)
  if speciesMatches.length ≥ 3 then speciesMatches
  else
    let genusMatches := l.filter (fun m => jsGeNum m.taxon.rank_level 60)
    if genusMatches.length ≥ 3 then genusMatches
    else
      let familyMatches := l.filter (fun m => jsGeNum m.taxon.rank_level 50)
      if familyMatches.length ≥ 3 then familyMatches
      else l

/-- Generic-match demotion (lines 850-858): when the leading candidate
is at rank level 30 or below and strictly more specific candidates
exist, those are moved in front of the candidates at level 40 or below. -/
def demoteGeneric (l : List CandidateMatch) : List CandidateMatch :=
  match l with
  | [] => []
  | top :: _ =>
    if jsLeNum top.taxon.rank_level 30 then
      let betterMatches := l.filter (fun m => jsGtNum m.taxon.rank_level 40)
      if betterMatches.length > 0 then
        betterMatches ++ l.filter (fun m => jsLeNum m.taxon.rank_level 40)
      else l
    else l

/-- Error-shaped identification result builder shared by the failure
returns of identifyWithOpenRouter. -/
def errorIdentResult (nm : String) (note : String) : IdentResult :=
  { category := "error", name := nm, scientificName := "N/A", taxonomicLevel := "",
    confidence := 0, status := none, geographicData := none, suggestions := [],
    featuresUsed := none, modelUsed := none, errorNote := some note }

/-- Whether an HTTP status is a fetch-API ok status. -/
def respOk (status : ℕ) : Bool := decide (200 ≤ status) && decide (status ≤ 299)

/-- Suggestion row of the success result (part_005 lines 886-895). -/
def suggestionOf (m : CandidateMatch) : Suggestion :=
  { name := jsOrS m.taxon.preferred_common_name (jsOrS m.taxon.name ""),
    scientificName := jsOrS m.taxon.name "",
    taxonomicLevel := jsOrS m.taxon.rank "Unknown",
    rankLevel := (m.taxon.rank_level).getD 0,
    confidence := m.matchScore,
    observations := m.observations.length,
    iNaturalistTaxonId := m.taxon.id }

/-- Success-branch result of identifyWithOpenRouter (part_005 lines
746-915): top match, geographic data, AI override of over-generic
database names, score and color and rank-tier filtering of the
suggestions, and the final switch of the headline identification when
the top match is still too generic. -/
def successResult (net : Net) (features : Features) (results : List CandidateMatch)
    (topMatch : CandidateMatch) : Except JsError IdentResult := do
  let taxonData ← getTaxonGeographicData net topMatch.taxon.id
  let isTooGeneric := jsLeNum topMatch.taxon.rank_level 40 &&
    (match features.visualFeatures with
     | some v =>
       match v.distinctiveFeatures with
       | some ds => ds.length > 0
       | none => false
     | none => false)
  let hasMoreSpecificID :=
    match features.specificIdentification with
    | some si => !si.mostSpecificTaxon.isEmpty && !si.taxonomicLevel.isEmpty &&
        (si.taxonomicLevel == "species" || si.taxonomicLevel == "genus")
    | none => false
  let si := (features.specificIdentification).getD
    { mostSpecificTaxon := "", taxonomicLevel := "", scientificName := "" }
  let finalName := if isTooGeneric && hasMoreSpecificID then si.mostSpecificTaxon
    else jsOrS topMatch.taxon.preferred_common_name (jsOrS topMatch.taxon.name "")
  let finalScientificName :=
    if isTooGeneric && hasMoreSpecificID && !si.scientificName.isEmpty then si.scientificName
    else jsOrS topMatch.taxon.name ""
  let finalTaxonomicLevel := if isTooGeneric && hasMoreSpecificID then si.taxonomicLevel
    else jsOrS topMatch.taxon.rank "Unknown"
  let filteredMatches := results.filter (fun m => decide (m.matchScore > 1/20))
  let primaryColors := extractPrimaryColors features
  let filteredMatches :=
    if primaryColors.length > 0 then
      let visuallyCompatible := filteredMatches.filter (fun m =>
        let allText := optLower m.taxon.name ++ " " ++
          optLower m.taxon.preferred_common_name ++ " " ++ optLower m.taxon.wikipedia_summary
        primaryColors.any (fun c => jsIncludes allText c))
      if visuallyCompatible.length ≥ 3 then visuallyCompatible else filteredMatches
    else filteredMatches
  let filteredMatches := applyRankTierFilter filteredMatches
  let filteredMatches := demoteGeneric filteredMatches
  let topMatches := filteredMatches.take 10
  let base : IdentResult :=
    { category := getCategory (some topMatch.taxon),
      name := finalName,
      scientificName := finalScientificName,
      taxonomicLevel := finalTaxonomicLevel,
      confidence := topMatch.matchScore,
      status := some "success",
      geographicData := some taxonData,
      suggestions := topMatches.map suggestionOf,
      featuresUsed := some features,
      modelUsed := none,
      errorNote := none }
  let overrideGeneric := jsLeNum topMatch.taxon.rank_level 30 && topMatches.length > 1 &&
    (match topMatches.head? with
     | some m0 => jsGtNum m0.taxon.rank_level 40
     | none => false)
  match topMatches.head? with
  | some m0 =>
    if overrideGeneric then
      pure { base with
        name := jsOrS m0.taxon.preferred_common_name (jsOrS m0.taxon.name ""),
        scientificName := jsOrS m0.taxon.name "",
        taxonomicLevel := jsOrS m0.taxon.rank "Unknown",
        confidence := m0.matchScore }
    else pure base
  | none => pure base

/-- Feature-extraction branch of identifyWithOpenRouter (part_005 lines
654-970): preprocess the features, search the observation database, and
build the result.  When the search produces no candidate, the source
evaluates the no-match return object, whose visualFiltering field reads
the identifier primaryColors that is declared only inside the sibling
success block (line 788); that read raises a ReferenceError, modelled
here as the error outcome of this branch. -/
def processFeatureX (net : Net) (features0 : Features) (locationData : Option LocationData) :
    Except JsError IdentResult :=
  let features := preprocessFeatures features0 locationData
  let inatResults := searchObservationsByFeatures net features locationData
  match inatResults.results with
  | topMatch :: _ => successResult net features inatResults.results topMatch
  | [] => Except.error JsError.referenceError

/-- Non-ok HTTP handling of the cascade (part_005 lines 543-624): on a
parsed rate-limit or quota error body, or a 429 or 402 status, a
rate-limited result whose name depends on the model already tried; raw
text mentioning rate limit or credits is handled by the catch branch;
anything else propagates as an upstream error. -/
def handleNotOk (resp : AIResponse) (currentModel : ModelId) : Except JsError IdentResult :=
  let statusRL := resp.status == 429 || resp.status == 402
  let parsedRL := resp.parseOk &&
    ((match resp.data.error with
      | some e => e.code == some 429 || e.code == some 402
      | none => false) || statusRL)
  if parsedRL then
    if currentModel == ModelId.backup then
      Except.ok (errorIdentResult "Rate Limit Exceeded"
        "Rate limit or insufficient credits for both primary and backup models")
    else
      Except.ok (errorIdentResult "API Usage Limit Reached"
        "Usage limit reached for OpenRouter API")
  else if jsIncludes resp.raw "rate limit" || jsIncludes resp.raw "credits" || statusRL then
    Except.ok (errorIdentResult "API Usage Limit Reached" "Usage limit reached")
  else Except.error (JsError.upstreamError resp.status)

/-- Geographic-data merge of the iNaturalist enrichment (part_005 lines
1151-1179): new data wins, except that existing regions are kept and
empty native or introduced lists fall back to the existing ones. -/
def mergeGeo (old : Option GeoData) (geoData : GeoData) : GeoData :=
  { geoData with
    regions := match old with
      | some o => o.regions
      | none => geoData.regions,
    nativeRegions := if geoData.nativeRegions.length > 0 then geoData.nativeRegions
      else match old with
        | some o => o.nativeRegions
        | none => [],
    introducedRegions := if geoData.introducedRegions.length > 0 then geoData.introducedRegions
      else match old with
        | some o => o.introducedRegions
        | none => [] }

/-- iNaturalist enrichment of a direct identification body (part_005
lines 1131-1188); every failure inside it is swallowed. -/
def enrichWithINat (net : Net) (r : IdentResult) : IdentResult :=
  if net.hasInatToken && !r.scientificName.isEmpty then
    match net.taxonByName r.scientificName with
    | some taxonData =>
      if taxonData.id ≠ 0 then
        match getTaxonGeographicData net taxonData.id with
        | Except.ok geoData => { r with geographicData := some (mergeGeo r.geographicData geoData) }
        | Except.error _ => r
      else r
    | none => r
  else r

/-- Fallback result of the identification parse (part_005 lines
1200-1213): Unknown Species at confidence 0.5, category from a plant
keyword scan of the content, tagged with the model used. -/
def unknownSpeciesFallback (raw : String) (currentModel : ModelId) : IdentResult :=
  { category := if jsIncludes (strLower raw) "plant" then "plant" else "animal",
    name := "Unknown Species", scientificName := "N/A", taxonomicLevel := "",
    confidence := 1/2, status := none, geographicData := none, suggestions := [],
    featuresUsed := none, modelUsed := some currentModel, errorNote := none }

/-- Post-error processing of a parsed response (part_005 lines
1078-1214): choices and content checks, then the identification-shaped
JSON parse with iNaturalist enrichment and the model tag, with the
Unknown Species fallback when the content JSON lacks the identification
wrapper. -/
def checkChoices (net : Net) (d : ApiData) (currentModel : ModelId) : IdentResult :=
  if !d.hasChoices then
    errorIdentResult "Invalid Response" "Missing choices in API response"
  else
    match d.content with
    | none => errorIdentResult "Empty Response" "No content in API response"
    | some c =>
      match c.json with
      | some (ContentJson.identJson r0) =>
        let r1 := enrichWithINat net r0
        { r1 with modelUsed := some currentModel }
      | _ => unknownSpeciesFallback c.raw currentModel

/-- Body-level error handling of a 2xx response (part_005 lines
978-1076): one backup retry when the parsed body carries a rate-limit or
credits error and the primary model was in use; a still-present error
yields a rate-limited or generic error result.  The returned list names
the extra model calls made here. -/
def afterFEData (net : Net) (d : ApiData) (currentModel : ModelId) :
    Except JsError IdentResult × List ModelId :=
  match d.error with
  | some e =>
    if (e.code == some 429 || e.code == some 402 ||
        jsIncludes e.message "rate limit" || jsIncludes e.message "credits") &&
       currentModel == ModelId.primary then
      let backupResponse := net.respond ModelId.backup
      if respOk backupResponse.status then
        if backupResponse.parseOk then
          (Except.ok (checkChoices net { backupResponse.data with error := none } ModelId.backup),
           [ModelId.backup])
        else
          (Except.ok (errorIdentResult "API Error" "Error when switching to backup model"),
           [ModelId.backup])
      else
        (Except.ok (errorIdentResult "Rate Limit Exceeded"
          "Rate limit exceeded for both primary and backup models"), [ModelId.backup])
    else
      if e.code == some 429 || jsIncludes e.message "rate limit" then
        (Except.ok (errorIdentResult "Rate Limit Exceeded" "Rate limit exceeded for all models"),
         [])
      else
        (Except.ok (errorIdentResult "API Error" e.message), [])
  | none => (Except.ok (checkChoices net d currentModel), [])

/-- Processing of the selected HTTP response in identifyWithOpenRouter:
non-ok handling, body parse, the feature-extraction branch (whose
internal exceptions are caught and fall through, line 973), then the
body-level error handling and the remaining parse chain. -/
def processResponse (net : Net) (locationData : Option LocationData) (resp : AIResponse)
    (currentModel : ModelId) : Except JsError IdentResult × List ModelId :=
  if !respOk resp.status then (handleNotOk resp currentModel, [])
  else if !resp.parseOk then (Except.error JsError.parseError, [])
  else
    let d := resp.data
    let feOutcome : Option IdentResult :=
      if d.hasChoices then
        match d.content with
        | some c =>
          match c.json with
          | some (ContentJson.featureX f) =>
            match processFeatureX net f locationData with
            | Except.ok r => some r
            | Except.error _ => none
          | _ => none
        | none => none
      else none
    match feOutcome with
    | some r => (Except.ok r, [])
    | none => afterFEData net d currentModel

/-- identifyWithOpenRouter (part_005 lines 296-1219): call the primary
model; on HTTP 429 or 402 call the backup model once and process its
response as the current one; the second component lists the model calls
made, in order.  Prompt construction and image-format normalization are
not modelled: they do not influence any control-flow decision of the
result. -/
def identifyWithOpenRouter (net : Net) (locationData : Option LocationData) :
    Except JsError IdentResult × List ModelId :=
  let r1 := net.respond ModelId.primary
  if r1.status == 429 || r1.status == 402 then
    let pr := processResponse net locationData (net.respond ModelId.backup) ModelId.backup
    (pr.1, ModelId.primary :: ModelId.backup :: pr.2)
  else
    let pr := processResponse net locationData r1 ModelId.primary
    (pr.1, ModelId.primary :: pr.2)

/-- Projection of an identification outcome to the fields the theorems
compare (name, confidence, status, category, model tag). -/
def resultView (x : Except JsError IdentResult) :
    Option (String × ℚ × Option String × String × Option ModelId) :=
  match x with
  | Except.ok r => some (r.name, r.confidence, r.status, r.category, r.modelUsed)
  | Except.error _ => none

/-- Rate-limited error results of the cascade, by display name. -/
def isRateLimitedResult (r : IdentResult) : Prop :=
  r.category = "error" ∧ (r.name = "Rate Limit Exceeded" ∨ r.name = "API Usage Limit Reached")

/-- Taxon with every optional field absent, used to build concrete test
taxa. -/
def baseTaxon : Taxon :=
  { id := 0, name := none, preferred_common_name := none, wikipedia_summary := none,
    iconic_taxon_name := none, rank := none, rank_level := none,
    establishment_means := none, tag_list := [], ancestors := [] }

/-- Feature record with every optional field absent. -/
def baseFeatures : Features :=
  { category := none, visualFeatures := none, taxonomicHints := none,
    specificIdentification := none, amazonianSpeciesMatch := none,
    searchTerms := none, confidence := none }

/-- Visual feature record with every list absent. -/
def baseVisual : VisualFeatures :=
  { colors := none, patterns := none, structures := none, distinctiveFeatures := none }

/-- Response value never consulted by the runs that use it. -/
def emptyAIResponse : AIResponse :=
  { status := 0, parseOk := false,
    data := { error := none, hasChoices := false, content := none }, raw := "" }

/-- Oracle bundle with empty answers everywhere, used to build concrete
test networks. -/
def baseNet : Net :=
  { respond := fun _ => emptyAIResponse, searchTaxa := fun _ _ => [],
    fetchObs := fun _ => [], taxonById := fun _ => none,
    taxonByName := fun _ => none, hasInatToken := false }

/-- Species-level taxon with a binomial name, scoring 1 with no
observations and no visual features. -/
def speciesTaxon : Taxon :=
  { baseTaxon with
    id := 1, name := some "Aus bus", rank := some "species",
    rank_level := some 70, iconic_taxon_name := some "Plantae" }

/-- Order-level taxon with a one-word name, scoring exactly 0.1 with no
observations and no visual features. -/
def orderTaxon : Taxon :=
  { baseTaxon with
    id := 2, name := some "Zeta", rank := some "order", rank_level := some 40 }

/-- Features for the boundary-score run: one search term and nothing
else. -/
def fC5 : Features :=
  { baseFeatures with
    searchTerms := some ["x"] }

/-- Network for the boundary-score run: the single search term returns
the species-level and the order-level taxon. -/
def netC5 : Net :=
  { baseNet with
    searchTaxa := fun q _ => if q == "x" then [speciesTaxon, orderTaxon] else [] }

/-- Features of the no-match run: category other, empty search terms and
hints, a nonzero AI confidence, no location. -/
def fC3 : Features :=
  { baseFeatures with
    category := some "other", searchTerms := some [],
    taxonomicHints := some [], confidence := some (9/10) }

/-- Network of the no-match run: a 200 response whose content carries a
feature-extraction body, and an observation database with no matches. -/
def netC3 : Net :=
  { baseNet with
    respond := fun _ =>
      { status := 200, parseOk := true,
        data := { error := none, hasChoices := true,
                  content := some { raw := "json", json := some (ContentJson.featureX fC3) } },
        raw := "json" } }

/-- Features of the backup-success run: one search term only. -/
def fC4 : Features :=
  { baseFeatures with
    searchTerms := some ["q"] }

/-- Network of the backup-success run: the primary model answers 429,
the backup answers 200 with a feature-extraction body, and the search
finds the species-level taxon. -/
def netC4 : Net :=
  { baseNet with
    respond := fun m =>
      match m with
      | ModelId.primary =>
        { status := 429, parseOk := true,
          data := { error := none, hasChoices := false, content := none }, raw := "rl" }
      | ModelId.backup =>
        { status := 200, parseOk := true,
          data := { error := none, hasChoices := true,
                    content := some { raw := "fx", json := some (ContentJson.featureX fC4) } },
          raw := "fx" },
    searchTaxa := fun q _ => if q == "q" then [speciesTaxon] else [],
    taxonById := fun n => if n == 1 then some speciesTaxon else none }

/-- Network where both models answer 429 with unparseable bodies. -/
def netC4RL : Net :=
  { baseNet with
    respond := fun _ =>
      { status := 429, parseOk := false,
        data := { error := none, hasChoices := false, content := none }, raw := "limit" } }

/-- Candidate at a given rank level with a fixed score, for the
rank-tier scenarios. -/
def cmOfRank (n : ℕ) (rl : ℚ) : CandidateMatch :=
  { taxon := { baseTaxon with id := n, rank_level := some rl },
    observations := [], matchScore := 1/2 }

/-- Scenario list of the rank-tier claim: 2 species-level, 5
genus-level and 1 family-level candidate. -/
def demoTierList : List CandidateMatch :=
  [cmOfRank 1 70, cmOfRank 2 70, cmOfRank 3 60, cmOfRank 4 60, cmOfRank 5 60,
   cmOfRank 6 60, cmOfRank 7 60, cmOfRank 8 50]

/-- Insect features matching the metallic scarab rule of the beetle
heuristic. -/
def beetleFeatures : Features :=
  { baseFeatures with
    category := some "insect",
    visualFeatures := some
      { baseVisual with
        colors := some ["metallic", "green"],
        distinctiveFeatures := some ["horn"] } }

/-- Location outside the Amazon box (Paris). -/
def parisLocation : LocationData :=
  { coords := some { lat := 489/10, lng := 47/20 }, name := some "Paris" }

/-- Amazon taxon of the severe-genericity witness: class-level rank,
binomial name, colors named in the summary. -/
def tC2 : Taxon :=
  { baseTaxon with
    id := 9, name := some "Aus bus", rank_level := some 20,
    iconic_taxon_name := some "Insecta",
    wikipedia_summary := some "green red shiny" }

/-- Features of the severe-genericity witness: two colors, category
animal. -/
def fC2 : Features :=
  { baseFeatures with
    category := some "animal",
    visualFeatures := some
      { baseVisual with
        colors := some ["green", "red"] } }

/-- Amazon location of the severe-genericity witness. -/
def locC2 : LocationData := { coords := some { lat := -3, lng := -60 }, name := none }

/-- One observation inside the Amazon box. -/
def amazonObs : Observation := { geojson := some { lat := -3, lng := -60 } }

/-- Eight Amazon observations, saturating the local-observation bonus. -/
def obsC2 : List Observation :=
  [amazonObs, amazonObs, amazonObs, amazonObs, amazonObs, amazonObs, amazonObs, amazonObs]

/-- Taxon of the histogram counterexample run: no establishment
metadata. -/
def tC9 : Taxon :=
  { baseTaxon with
    id := 42, name := some "Xus" }

/-- Network of the empty-histogram run: one observation in the middle of
the Pacific, inside no continent rectangle. -/
def netC9 : Net :=
  { baseNet with
    taxonById := fun n => if n == 42 then some tC9 else none,
    fetchObs := fun _ => [{ geojson := some { lat := 0, lng := 180 } }] }

/-- Taxon of the histogram witness run. -/
def tC9W : Taxon :=
  { baseTaxon with
    id := 43, name := some "Yus" }

/-- Network of the histogram witness run: two observations in Africa
and one in Europe. -/
def netC9W : Net :=
  { baseNet with
    taxonById := fun n => if n == 43 then some tC9W else none,
    fetchObs := fun _ =>
      [{ geojson := some { lat := 0, lng := 10 } },
       { geojson := some { lat := 2, lng := 12 } },
       { geojson := some { lat := 48, lng := 10 } }] }

/-- Insect taxon used by the category-bonus counterexample. -/
def insTaxonC8 : Taxon :=
  { baseTaxon with
    iconic_taxon_name := some "Insecta" }

/-- Feature record of category insect. -/
def featsInsectC8 : Features :=
  { baseFeatures with
    category := some "insect" }

/-- Feature record of category animal. -/
def featsAnimalC8 : Features :=
  { baseFeatures with
    category := some "animal" }

/-- The clamped score never exceeds the floored pre-clamp value. -/
theorem clamp01_le_max0 (x : ℚ) : clamp01 (max 0 x) ≤ max 0 x := by
  unfold clamp01
  rw [← max_assoc, max_self]
  exact min_le_right 1 (max 0 x)

/-- C1: calculateMatchScore is a pure function of its four arguments —
in this embedding it is a Lean function, so two applications to the same
arguments are definitionally the same score — and every score it
returns lies in the closed interval from 0 to 1, by the final clamp. -/
theorem calculateMatchScore_pure_bounded (t : Taxon) (obs : List Observation)
    (f : Features) (loc : Option LocationData) :
    calculateMatchScore t obs f loc = calculateMatchScore t obs f loc ∧
    0 ≤ calculateMatchScore t obs f loc ∧ calculateMatchScore t obs f loc ≤ 1 := by
  refine ⟨rfl, ?_, ?_⟩ <;> unfold calculateMatchScore clamp01
  · exact le_min (by norm_num) (le_max_left 0 _)
  · exact min_le_left 1 _

/-- C8 counterexample: the taxon Insecta is not a plant, and the
categories insect and animal both denote non-plant organisms, so under
the claim both feature records correspond to the taxon in the same
coarse way; yet the insect record receives no bonus (score 0.3) while
the animal record receives 0.15 (score 0.45). -/
theorem categoryBonus_insect_counterexample :
    calculateMatchScore insTaxonC8 [] featsInsectC8 none = 3/10 ∧
    calculateMatchScore insTaxonC8 [] featsAnimalC8 none = 9/20 := by
  constructor
  · with_unfolding_all rfl
  · with_unfolding_all rfl

/-- C8 amended: the category factor of calculateMatchScore is 0.15 or
0, and it is 0.15 exactly when both the iconic name and the category are
present and nonempty and either the iconic name is plantae with category
plant, or the iconic name is not plantae with category exactly animal —
the categories insect, fungus and other never receive the bonus. -/
theorem categoryBonus_characterization (ic cat : Option String) :
    (categoryBonus ic cat = 3/20 ∨ categoryBonus ic cat = 0) ∧
    (categoryBonus ic cat = 3/20 ↔
      (jsStrTruthy ic = true ∧ jsStrTruthy cat = true ∧
       ((optLower ic = "plantae" ∧ optLower cat = "plant") ∨
        (optLower ic ≠ "plantae" ∧ optLower cat = "animal")))) := by
  unfold categoryBonus
  by_cases h1 : (jsStrTruthy ic && jsStrTruthy cat) = true
  · rw [if_pos h1]
    rcases Bool.and_eq_true_iff.mp h1 with ⟨hic, hcat⟩
    by_cases h2 : ((optLower ic == "plantae" && optLower cat == "plant") ||
        (!(optLower ic == "plantae") && optLower cat == "animal")) = true
    · rw [if_pos h2]
      refine ⟨Or.inl rfl, ?_⟩
      simp only [true_iff, iff_true_intro rfl]
      refine ⟨hic, hcat, ?_⟩
      rcases Bool.or_eq_true_iff.mp h2 with h | h
      · rcases Bool.and_eq_true_iff.mp h with ⟨ha, hb⟩
        exact Or.inl ⟨beq_iff_eq.mp ha, beq_iff_eq.mp hb⟩
      · rcases Bool.and_eq_true_iff.mp h with ⟨ha, hb⟩
        refine Or.inr ⟨?_, beq_iff_eq.mp hb⟩
        intro hEq
        rw [Bool.not_eq_true'] at ha
        exact absurd hEq (by simpa using ha)
    · rw [if_neg h2]
      refine ⟨Or.inr rfl, ?_⟩
      constructor
      · intro hAbs
        exact absurd hAbs (by norm_num)
      · rintro ⟨-, -, hcase⟩
        exfalso
        apply h2
        rcases hcase with ⟨ha, hb⟩ | ⟨ha, hb⟩
        · exact Bool.or_eq_true_iff.mpr (Or.inl (Bool.and_eq_true_iff.mpr
            ⟨beq_iff_eq.mpr ha, beq_iff_eq.mpr hb⟩))
        · refine Bool.or_eq_true_iff.mpr (Or.inr (Bool.and_eq_true_iff.mpr ⟨?_, beq_iff_eq.mpr hb⟩))
          simpa using ha
  · rw [if_neg h1]
    refine ⟨Or.inr rfl, ?_⟩
    constructor
    · intro hAbs
      exact absurd hAbs (by norm_num)
    · rintro ⟨hic, hcat, -⟩
      exact absurd (Bool.and_eq_true_iff.mpr ⟨hic, hcat⟩) h1

/-- The region-mismatch penalty never fires for a taxon whose rank
level is at most 40, because it requires rank level at least 50. -/
theorem regionPenalty_skip_low_rank (t : Taxon) (obs : List Observation)
    (loc : Option LocationData) (s : ℚ) (r : ℚ)
    (h : t.rank_level = some r) (hr : r ≤ 40) :
    regionMismatchPenalty t obs loc s = s := by
  have hg : jsGeNum t.rank_level 50 = false := by
    rw [h]
    unfold jsGeNum
    simp only [decide_eq_false_iff_not]
    linarith
  unfold regionMismatchPenalty
  rcases loc with - | l
  · rfl
  · rcases hc : l.coords with - | c
    · simp [hc]
    · simp [hc, hg]

/-- C2: with visual detail available (at least 2 colors or at least 1
pattern) the severe-genericity override makes the final score exactly
the clamp of max 0 (accumulated score minus 0.9) when the rank level is
at most 30, hence at most the accumulated score minus 0.9 floored at 0;
with rank level strictly between 30 and at most 40 the flat subtraction
is 0.8 instead. -/
theorem severeOverride_dominates (t : Taxon) (obs : List Observation) (f : Features)
    (loc : Option LocationData) (r : ℚ)
    (h : t.rank_level = some r) (hd : hasDetailedVisuals f = true) :
    (r ≤ 30 →
      calculateMatchScore t obs f loc =
        clamp01 (max 0 (preOverrideScore t obs f loc - 9/10)) ∧
      calculateMatchScore t obs f loc ≤ max 0 (preOverrideScore t obs f loc - 9/10)) ∧
    (30 < r → r ≤ 40 →
      calculateMatchScore t obs f loc =
        clamp01 (max 0 (preOverrideScore t obs f loc - 8/10)) ∧
      calculateMatchScore t obs f loc ≤ max 0 (preOverrideScore t obs f loc - 8/10)) := by
  constructor
  · intro h30
    have hle : jsLeNum t.rank_level 30 = true := by
      rw [h]
      unfold jsLeNum
      simpa using h30
    have heq : calculateMatchScore t obs f loc =
        clamp01 (max 0 (preOverrideScore t obs f loc - 9/10)) := by
      unfold calculateMatchScore severeGenericityOverride
      rw [regionPenalty_skip_low_rank t obs loc _ r h (by linarith)]
      rw [hle, hd]
      simp
    exact ⟨heq, heq ▸ clamp01_le_max0 _⟩
  · intro h30 h40
    have hle30 : jsLeNum t.rank_level 30 = false := by
      rw [h]
      unfold jsLeNum
      simp only [decide_eq_false_iff_not]
      linarith
    have hle40 : jsLeNum t.rank_level 40 = true := by
      rw [h]
      unfold jsLeNum
      simpa using h40
    have heq : calculateMatchScore t obs f loc =
        clamp01 (max 0 (preOverrideScore t obs f loc - 8/10)) := by
      unfold calculateMatchScore severeGenericityOverride
      rw [regionPenalty_skip_low_rank t obs loc _ r h h40]
      rw [hle30, hle40, hd]
      simp
    exact ⟨heq, heq ▸ clamp01_le_max0 _⟩

/-- C2 witness: a class-level taxon (rank level 20) with two matching
colors, saturated local-observation bonus, Amazon bioregion bonus,
category bonus and a binomial name accumulates 1.3 before the override,
which exceeds 0.9, and ends at exactly 0.4 after the flat subtraction. -/
theorem severeOverride_dominates_witness :
    preOverrideScore tC2 obsC2 fC2 (some locC2) = 13/10 ∧
    (9/10 : ℚ) < preOverrideScore tC2 obsC2 fC2 (some locC2) ∧
    calculateMatchScore tC2 obsC2 fC2 (some locC2) =
      clamp01 (max 0 (preOverrideScore tC2 obsC2 fC2 (some locC2) - 9/10)) ∧
    calculateMatchScore tC2 obsC2 fC2 (some locC2) = 2/5 := by
  have hmain := (severeOverride_dominates tC2 obsC2 fC2 (some locC2) 20 rfl
    (by with_unfolding_all rfl)).1 (by norm_num)
  refine ⟨by with_unfolding_all rfl, ?_, hmain.1, by with_unfolding_all rfl⟩
  rw [show preOverrideScore tC2 obsC2 fC2 (some locC2) = 13/10 from by with_unfolding_all rfl]
  norm_num

/-- A candidate scoring below 0.1 never passes the keep filter. -/
theorem keepFilter_false_of_lowscore (primaryColors : List String) (m : CandidateMatch)
    (h : m.matchScore < 1/10) : candidateKeepFilter primaryColors m = false := by
  unfold candidateKeepFilter
  rw [if_pos (by simpa using h)]

/-- C5 amended: every candidate scoring strictly below 0.1 is dropped
by the filter of searchObservationsByFeatures, so such a candidate can
appear in the returned results only when the combined score and color
filter empties the list, in which case the unfiltered, still
score-sorted candidate list is returned unchanged. -/
theorem scoreFilter_fallback (net : Net) (f : Features) (loc : Option LocationData) :
    (∀ m ∈ (searchObservationsByFeatures net f loc).results, m.matchScore < 1/10 →
      (scoredCandidates net f loc).filter
        (candidateKeepFilter (extractPrimaryColors f)) = [] ∧
      (searchObservationsByFeatures net f loc).results = scoredCandidates net f loc) ∧
    ((scoredCandidates net f loc).filter (candidateKeepFilter (extractPrimaryColors f)) = [] →
      (searchObservationsByFeatures net f loc).results = scoredCandidates net f loc) := by
  constructor
  · intro m hm hsc
    by_cases hf : ((scoredCandidates net f loc).filter
        (candidateKeepFilter (extractPrimaryColors f))).length > 0
    · exfalso
      have hres : (searchObservationsByFeatures net f loc).results =
          (scoredCandidates net f loc).filter (candidateKeepFilter (extractPrimaryColors f)) := by
        unfold searchObservationsByFeatures
        simp only [hf, if_pos]
      rw [hres] at hm
      have := (List.mem_filter.mp hm).2
      rw [keepFilter_false_of_lowscore _ m hsc] at this
      exact Bool.false_ne_true this
    · have hz : (scoredCandidates net f loc).filter
          (candidateKeepFilter (extractPrimaryColors f)) = [] := by
        rcases hq : (scoredCandidates net f loc).filter
            (candidateKeepFilter (extractPrimaryColors f)) with - | ⟨a, as⟩
        · rfl
        · rw [hq] at hf
          simp at hf
      refine ⟨hz, ?_⟩
      unfold searchObservationsByFeatures
      dsimp only
      rw [hz]
      simp
  · intro hz
    unfold searchObservationsByFeatures
    dsimp only
    rw [hz]
    simp

/-- C5 counterexample: with one search term returning a species-level
taxon (score 1) and an order-level taxon (score exactly 0.1), the final
result list keeps the 0.1-scoring candidate even though dropping it
would not empty the list — the code drops only scores strictly below
0.1, not scores equal to 0.1. -/
theorem scoreFilter_boundary_counterexample :
    ((searchObservationsByFeatures netC5 fC5 none).results.map CandidateMatch.matchScore) =
      [1, 1/10] ∧
    ((searchObservationsByFeatures netC5 fC5 none).results.map (fun m => m.taxon.id)) = [1, 2] := by
  constructor
  · with_unfolding_all rfl
  · with_unfolding_all rfl

/-- C6: the rank-tier filter keeps the species tier (rank level at
least 70) when it has at least 3 members, else the genus tier (at least
60) when that has at least 3 members, else the family tier (at least
50) when that has at least 3 members, else the whole list; in
particular, when the species tier has fewer than 3 members and the
genus tier has at least 3, the result is exactly the genus tier in
order, every member at rank level at least 60 — family-or-broader
candidates excluded. -/
theorem rankTier_preference (l : List CandidateMatch) :
    ((l.filter (fun m => jsGeNum m.taxon.rank_level 70)).length ≥ 3 →
      applyRankTierFilter l = l.filter (fun m => jsGeNum m.taxon.rank_level 70)) ∧
    ((l.filter (fun m => jsGeNum m.taxon.rank_level 70)).length < 3 →
     (l.filter (fun m => jsGeNum m.taxon.rank_level 60)).length ≥ 3 →
      applyRankTierFilter l = l.filter (fun m => jsGeNum m.taxon.rank_level 60) ∧
      ∀ m ∈ applyRankTierFilter l, jsGeNum m.taxon.rank_level 60 = true) ∧
    ((l.filter (fun m => jsGeNum m.taxon.rank_level 70)).length < 3 →
     (l.filter (fun m => jsGeNum m.taxon.rank_level 60)).length < 3 →
     (l.filter (fun m => jsGeNum m.taxon.rank_level 50)).length ≥ 3 →
      applyRankTierFilter l = l.filter (fun m => jsGeNum m.taxon.rank_level 50)) ∧
    ((l.filter (fun m => jsGeNum m.taxon.rank_level 70)).length < 3 →
     (l.filter (fun m => jsGeNum m.taxon.rank_level 60)).length < 3 →
     (l.filter (fun m => jsGeNum m.taxon.rank_level 50)).length < 3 →
      applyRankTierFilter l = l) := by
  refine ⟨?_, ?_, ?_, ?_⟩
  · intro h70
    unfold applyRankTierFilter
    rw [if_pos h70]
  · intro h70 h60
    have heq : applyRankTierFilter l = l.filter (fun m => jsGeNum m.taxon.rank_level 60) := by
      unfold applyRankTierFilter
      rw [if_neg (by omega), if_pos h60]
    refine ⟨heq, ?_⟩
    intro m hm
    rw [heq] at hm
    exact (List.mem_filter.mp hm).2
  · intro h70 h60 h50
    unfold applyRankTierFilter
    rw [if_neg (by omega), if_neg (by omega), if_pos h50]
  · intro h70 h60 h50
    unfold applyRankTierFilter
    rw [if_neg (by omega), if_neg (by omega), if_neg (by omega)]

/-- C6 witness: the 2-species, 5-genus, 1-family scenario — the filter
returns the 7 candidates at rank level at least 60 (the 2 species-level
ones and the 5 genus-level ones), in order, family excluded. -/
theorem rankTier_preference_witness :
    applyRankTierFilter demoTierList =
      demoTierList.filter (fun m => jsGeNum m.taxon.rank_level 60) ∧
    (applyRankTierFilter demoTierList).map (fun m => m.taxon.id) = [1, 2, 3, 4, 5, 6, 7] := by
  have h70 : (demoTierList.filter (fun m => jsGeNum m.taxon.rank_level 70)).length = 2 := by
    with_unfolding_all rfl
  have h60 : (demoTierList.filter (fun m => jsGeNum m.taxon.rank_level 60)).length = 7 := by
    with_unfolding_all rfl
  have hmain := ((rankTier_preference demoTierList).2.1 (by omega) (by omega)).1
  refine ⟨hmain, ?_⟩
  rw [hmain]
  with_unfolding_all rfl

/-- First-match of an ordered box list is the unique matching entry when
exactly one entry matches. -/
theorem find_box_unique (l : List (String × RegionBox)) (x : String × RegionBox)
    (lat lng : ℚ) (hmem : x ∈ l) (hx : inBox lat lng x.2 = true)
    (huniq : ∀ y ∈ l, y ≠ x → inBox lat lng y.2 = false) :
    l.find? (fun nb => inBox lat lng nb.2) = some x := by
  induction l with
  | nil => cases hmem
  | cons a as ih =>
    by_cases ha : a = x
    · subst ha
      simp [List.find?, hx]
    · have hfa : inBox lat lng a.2 = false := huniq a (List.mem_cons_self a as) ha
      have hmem2 : x ∈ as := by
        rcases List.mem_cons.mp hmem with h | h
        · exact absurd h.symm ha
        · exact h
      simp only [List.find?, hfa]
      exact ih hmem2 (fun y hy hne => huniq y (List.mem_cons_of_mem a hy) hne)

/-- C7: region classification is a first-match scan of the ordered
regionBoxes table (biome boxes listed before continent boxes): a point
inside exactly one listed box classifies as that box, and a point inside
both the overlapping Amazon and Cerrado boxes classifies as the
first-listed Amazon box. -/
theorem classifyRegion_first_match (lat lng : ℚ) (x : String × RegionBox) :
    (x ∈ regionBoxes → inBox lat lng x.2 = true →
      (∀ y ∈ regionBoxes, y ≠ x → inBox lat lng y.2 = false) →
      classifyRegion lat lng = x.1) ∧
    (inBox (-7) (-55) { latMin := -(19/2), latMax := 5, lngMin := -79, lngMax := -50 } = true ∧
     inBox (-7) (-55) { latMin := -24, latMax := -5, lngMin := -60, lngMax := -42 } = true ∧
     classifyRegion (-7) (-55) = "the Amazon rainforest") := by
  constructor
  · intro hmem hx huniq
    unfold classifyRegion
    rw [find_box_unique regionBoxes x lat lng hmem hx huniq]
  · refine ⟨by with_unfolding_all rfl, by with_unfolding_all rfl, by with_unfolding_all rfl⟩

/-- C7 witness: the point (45, -100) lies inside exactly one declared
box, the North America continent box, and classifies as North America. -/
theorem classifyRegion_first_match_witness :
    classifyRegion 45 (-100) = "North America" := by
  have h := (classifyRegion_first_match 45 (-100)
    ("North America", { latMin := 15, latMax := 75, lngMin := -170, lngMax := -50 })).1
  exact h (by with_unfolding_all decide) (by with_unfolding_all rfl)
    (by with_unfolding_all decide)

/-- C10: the beetle heuristic returns the empty list whenever a
location with coordinates outside the Amazon box is supplied, and
whenever the feature record passes neither the insect-category test nor
the insect/beetle/coleoptera hint test; with no location at all the
keyword rules still run — the concrete metallic-green-horn insect
features return the known species Phanaeus lancifer. -/
theorem amazonianBeetles_gates (f : Features) (l : LocationData) (c : Coords)
    (loc : Option LocationData) :
    (l.coords = some c → isInAmazon c.lat c.lng = false →
      checkForKnownAmazonianBeetles f (some l) = []) ∧
    (isInsectLike f = false → checkForKnownAmazonianBeetles f loc = []) ∧
    checkForKnownAmazonianBeetles beetleFeatures none = ["Phanaeus lancifer"] := by
  refine ⟨?_, ?_, by with_unfolding_all rfl⟩
  · intro hc hout
    unfold checkForKnownAmazonianBeetles
    simp [hc, hout]
  · intro hins
    unfold checkForKnownAmazonianBeetles
    rcases loc with - | l2
    · simp [hins]
    · rcases hc2 : l2.coords with - | c2
      · simp [hc2, hins]
      · rcases hAz : isInAmazon c2.lat c2.lng
        · simp [hc2, hAz, hins]
        · simp [hc2, hAz, hins]

/-- C10 witness: the same insect features with a Paris location return
nothing — the Amazon gate applies once a location is present. -/
theorem amazonianBeetles_gates_witness :
    checkForKnownAmazonianBeetles beetleFeatures (some parisLocation) = [] ∧
    checkForKnownAmazonianBeetles beetleFeatures none = ["Phanaeus lancifer"] := by
  have h := amazonianBeetles_gates beetleFeatures parisLocation
    { lat := 489/10, lng := 47/20 } none
  exact ⟨h.1 rfl (by with_unfolding_all rfl), h.2.2⟩

/-- C3: the no-match scenario (empty search terms, empty taxonomic
hints, no location, zero database results) does not produce the
intended no-match result.  The no-match return object of part_005 lines
942-969 reads the identifier primaryColors, which is declared only
inside the sibling success block (line 788); the resulting
ReferenceError is swallowed by the catch on line 973, the identification
parse on line 1127 then fails on the feature-extraction body, and the
function returns the Unknown Species fallback of lines 1200-1213 with
confidence 0.5, no status field and no no-match confidence policy.
Only the primary model is called. -/
theorem noMatch_branch_bug :
    resultView (identifyWithOpenRouter netC3 none).1 =
      some ("Unknown Species", 1/2, none, "animal", some ModelId.primary) ∧
    (identifyWithOpenRouter netC3 none).2 = [ModelId.primary] ∧
    processFeatureX netC3 fC3 none = Except.error JsError.referenceError := by
  refine ⟨by with_unfolding_all rfl, by with_unfolding_all rfl, by with_unfolding_all rfl⟩

/-- C4 counterexample: the primary model answers 429, the backup model
answers 200 with a feature-extraction body, and the database search
succeeds — the run makes exactly the two model calls and returns a
successful identification, but the result carries no model tag at all
(modelUsed is only ever set on the direct-identification parse path of
line 1194, not on the feature-extraction success path of lines
864-915). -/
theorem backupSuccess_untagged_counterexample :
    (identifyWithOpenRouter netC4 none).2 = [ModelId.primary, ModelId.backup] ∧
    resultView (identifyWithOpenRouter netC4 none).1 =
      some ("Aus bus", 1, some "success", "plant", none) := by
  refine ⟨by with_unfolding_all rfl, by with_unfolding_all rfl⟩

/-- The body-level retry never runs when the backup model is already the
current one, so it adds no model call. -/
theorem afterFEData_backup_extra (net : Net) (d : ApiData) :
    (afterFEData net d ModelId.backup).2 = [] := by
  unfold afterFEData
  rcases hE : d.error with - | e
  · simp only [hE]
  · simp only [hE, show (ModelId.backup == ModelId.primary) = false from rfl, Bool.and_false,
      Bool.false_eq_true, if_false]
    split <;> rfl

/-- The body-level error handling adds at most one model call. -/
theorem afterFEData_extra_len (net : Net) (d : ApiData) (cur : ModelId) :
    (afterFEData net d cur).2.length ≤ 1 := by
  unfold afterFEData
  rcases hE : d.error with - | e
  · simp only [hE]
    exact Nat.zero_le 1
  · simp only [hE]
    split
    · split
      · split <;> simp
      · simp
    · split <;> simp

/-- Processing a response with the backup model current adds no model
call. -/
theorem processResponse_backup_extra (net : Net) (loc : Option LocationData)
    (resp : AIResponse) : (processResponse net loc resp ModelId.backup).2 = [] := by
  unfold processResponse
  split
  · rfl
  · split
    · rfl
    · dsimp only
      split
      · rfl
      · exact afterFEData_backup_extra net resp.data

/-- Processing a response adds at most one model call. -/
theorem processResponse_extra_len (net : Net) (loc : Option LocationData)
    (resp : AIResponse) (cur : ModelId) : (processResponse net loc resp cur).2.length ≤ 1 := by
  unfold processResponse
  split
  · simp
  · split
    · simp
    · dsimp only
      split
      · simp
      · exact afterFEData_extra_len net resp.data cur

/-- A 429 or 402 status is not a fetch-ok status. -/
theorem respOk_rateLimited (s : ℕ) (h : s = 429 ∨ s = 402) : respOk s = false := by
  rcases h with h | h <;> subst h <;> rfl

/-- A second rate-limit or quota status while the backup model is
current always yields a rate-limited error result. -/
theorem handleNotOk_backup_rateLimited (resp : AIResponse)
    (h : resp.status = 429 ∨ resp.status = 402) :
    ∃ r, handleNotOk resp ModelId.backup = Except.ok r ∧ isRateLimitedResult r := by
  have hSRL : (resp.status == 429 || resp.status == 402) = true := by
    rcases h with h | h <;> simp [h]
  unfold handleNotOk
  rcases hP : resp.parseOk
  · simp only [hP, Bool.false_and, Bool.false_eq_true, if_false, hSRL, Bool.or_true, if_true]
    exact ⟨_, rfl, by simp [errorIdentResult, isRateLimitedResult]⟩
  · simp only [hP, Bool.true_and, hSRL, Bool.or_true, if_true,
      show (ModelId.backup == ModelId.backup) = true from rfl]
    exact ⟨_, rfl, by simp [errorIdentResult, isRateLimitedResult]⟩

/-- C4 amended: the cascade calls the primary model first and makes at
most two model calls in total; a primary 429 or 402 status is followed
by exactly one backup call with the same request (the call function is
fixed); if the backup also answers 429 or 402 the run returns a
rate-limited error result and no third call happens; a backup success
whose body parses as the direct-identification JSON shape is tagged
with the backup model identifier (a backup success through the
feature-extraction path carries no model tag, see the counterexample). -/
theorem aiCascade_retry_once (net : Net) (loc : Option LocationData) :
    ((identifyWithOpenRouter net loc).2.length ≤ 2 ∧
     (identifyWithOpenRouter net loc).2.head? = some ModelId.primary) ∧
    (((net.respond ModelId.primary).status = 429 ∨ (net.respond ModelId.primary).status = 402) →
      (identifyWithOpenRouter net loc).2 = [ModelId.primary, ModelId.backup]) ∧
    (((net.respond ModelId.primary).status = 429 ∨ (net.respond ModelId.primary).status = 402) →
     ((net.respond ModelId.backup).status = 429 ∨ (net.respond ModelId.backup).status = 402) →
      ∃ r, (identifyWithOpenRouter net loc).1 = Except.ok r ∧ isRateLimitedResult r) ∧
    (∀ c r0,
      ((net.respond ModelId.primary).status = 429 ∨ (net.respond ModelId.primary).status = 402) →
      respOk (net.respond ModelId.backup).status = true →
      (net.respond ModelId.backup).parseOk = true →
      (net.respond ModelId.backup).data.error = none →
      (net.respond ModelId.backup).data.hasChoices = true →
      (net.respond ModelId.backup).data.content = some c →
      c.json = some (ContentJson.identJson r0) →
      ∃ r, (identifyWithOpenRouter net loc).1 = Except.ok r ∧
        r.modelUsed = some ModelId.backup) := by
  rcases hb : ((net.respond ModelId.primary).status == 429 ||
      (net.respond ModelId.primary).status == 402)
  · have hnot : ¬((net.respond ModelId.primary).status = 429 ∨
        (net.respond ModelId.primary).status = 402) := by
      intro hp
      rcases hp with hp | hp <;> simp [hp] at hb
    have hid : identifyWithOpenRouter net loc =
        ((processResponse net loc (net.respond ModelId.primary) ModelId.primary).1,
         ModelId.primary :: (processResponse net loc (net.respond ModelId.primary)
           ModelId.primary).2) := by
      simp [identifyWithOpenRouter, hb]
    refine ⟨⟨?_, ?_⟩, fun hp => absurd hp hnot, fun hp => absurd hp hnot,
      fun c r0 hp => absurd hp hnot⟩
    · rw [hid]
      have := processResponse_extra_len net loc (net.respond ModelId.primary) ModelId.primary
      simp only [List.length_cons]
      omega
    · rw [hid]
      rfl
  · have hid : identifyWithOpenRouter net loc =
        ((processResponse net loc (net.respond ModelId.backup) ModelId.backup).1,
         ModelId.primary :: ModelId.backup :: (processResponse net loc
           (net.respond ModelId.backup) ModelId.backup).2) := by
      simp [identifyWithOpenRouter, hb]
    have hextra := processResponse_backup_extra net loc (net.respond ModelId.backup)
    refine ⟨⟨?_, ?_⟩, ?_, ?_, ?_⟩
    · rw [hid]
      simp [hextra]
    · rw [hid]
      rfl
    · intro hp
      rw [hid]
      simp [hextra]
    · intro hp hbk
      rw [hid]
      have hOk : respOk (net.respond ModelId.backup).status = false :=
        respOk_rateLimited _ hbk
      have hpr : (processResponse net loc (net.respond ModelId.backup) ModelId.backup).1 =
          handleNotOk (net.respond ModelId.backup) ModelId.backup := by
        unfold processResponse
        rw [hOk]
        simp
      rw [hpr]
      exact handleNotOk_backup_rateLimited (net.respond ModelId.backup) hbk
    · intro c r0 hp hOk hParse hErr hChoices hContent hJson
      rw [hid]
      have hpr : (processResponse net loc (net.respond ModelId.backup) ModelId.backup).1 =
          (afterFEData net (net.respond ModelId.backup).data ModelId.backup).1 := by
        unfold processResponse
        rw [hOk, hParse]
        simp only [Bool.not_true, Bool.false_eq_true, if_false]
        simp [hChoices, hContent, hJson]
      have haf : (afterFEData net (net.respond ModelId.backup).data ModelId.backup).1 =
          Except.ok (checkChoices net (net.respond ModelId.backup).data ModelId.backup) := by
        unfold afterFEData
        rw [hErr]
      have hcc : checkChoices net (net.respond ModelId.backup).data ModelId.backup =
          { enrichWithINat net r0 with modelUsed := some ModelId.backup } := by
        unfold checkChoices
        rw [hChoices]
        simp only [Bool.not_true, Bool.false_eq_true, if_false, hContent, hJson]
      exact ⟨{ enrichWithINat net r0 with modelUsed := some ModelId.backup },
        by rw [hpr, haf, hcc], rfl⟩

/-- C4 witness: with both models answering 429 the run returns a
rate-limited error result after exactly the two calls. -/
theorem aiCascade_retry_once_witness :
    (∃ r, (identifyWithOpenRouter netC4RL none).1 = Except.ok r ∧ isRateLimitedResult r) ∧
    (identifyWithOpenRouter netC4RL none).2 = [ModelId.primary, ModelId.backup] :=
  ⟨(aiCascade_retry_once netC4RL none).2.2.1 (Or.inl rfl) (Or.inl rfl),
   (aiCascade_retry_once netC4RL none).2.1 (Or.inl rfl)⟩

/-- Membership in the descending insertion. -/
theorem mem_insertDescBy (key : α → ℚ) (x y : α) (l : List α) :
    y ∈ insertDescBy key x l ↔ y = x ∨ y ∈ l := by
  induction l with
  | nil => simp [insertDescBy]
  | cons z zs ih =>
    unfold insertDescBy
    by_cases hlt : key z < key x
    · rw [if_pos hlt]
      simp [List.mem_cons]
    · rw [if_neg hlt]
      simp only [List.mem_cons, ih]
      tauto

/-- The descending insertion preserves descending pairwise order. -/
theorem pairwise_insertDescBy (key : α → ℚ) (x : α) (l : List α)
    (h : l.Pairwise (fun a b => key b ≤ key a)) :
    (insertDescBy key x l).Pairwise (fun a b => key b ≤ key a) := by
  induction l with
  | nil => simp [insertDescBy]
  | cons y ys ih =>
    rw [List.pairwise_cons] at h
    unfold insertDescBy
    by_cases hlt : key y < key x
    · rw [if_pos hlt]
      refine List.pairwise_cons.mpr ⟨?_, List.pairwise_cons.mpr ⟨h.1, h.2⟩⟩
      intro z hz
      rcases List.mem_cons.mp hz with hz | hz
      · subst hz
        exact le_of_lt hlt
      · exact le_trans (h.1 z hz) (le_of_lt hlt)
    · rw [if_neg hlt]
      refine List.pairwise_cons.mpr ⟨?_, ih h.2⟩
      intro z hz
      rcases (mem_insertDescBy key x z ys).mp hz with hz | hz
      · subst hz
        exact le_of_not_lt hlt
      · exact h.1 z hz

/-- The descending insertion adds one element. -/
theorem length_insertDescBy (key : α → ℚ) (x : α) (l : List α) :
    (insertDescBy key x l).length = l.length + 1 := by
  induction l with
  | nil => rfl
  | cons z zs ih =>
    unfold insertDescBy
    by_cases hlt : key z < key x
    · rw [if_pos hlt]
      rfl
    · rw [if_neg hlt]
      simp [ih]

/-- Membership in the descending sort. -/
theorem mem_sortDescBy (key : α → ℚ) (l : List α) (y : α) :
    y ∈ sortDescBy key l ↔ y ∈ l := by
  have aux : ∀ (l acc : List α), y ∈ l.foldl (fun a x => insertDescBy key x a) acc ↔
      y ∈ acc ∨ y ∈ l := by
    intro l
    induction l with
    | nil => simp
    | cons z zs ih =>
      intro acc
      simp only [List.foldl_cons, ih, mem_insertDescBy, List.mem_cons]
      tauto
  unfold sortDescBy
  rw [aux l []]
  simp

/-- The descending sort keeps the length. -/
theorem length_sortDescBy (key : α → ℚ) (l : List α) :
    (sortDescBy key l).length = l.length := by
  have aux : ∀ (l acc : List α), (l.foldl (fun a x => insertDescBy key x a) acc).length =
      acc.length + l.length := by
    intro l
    induction l with
    | nil => simp
    | cons z zs ih =>
      intro acc
      simp only [List.foldl_cons, ih, length_insertDescBy, List.length_cons]
      omega
  unfold sortDescBy
  rw [aux l []]
  simp

/-- The descending sort is pairwise descending on the key. -/
theorem pairwise_sortDescBy (key : α → ℚ) (l : List α) :
    (sortDescBy key l).Pairwise (fun a b => key b ≤ key a) := by
  have aux : ∀ (l acc : List α), acc.Pairwise (fun a b => key b ≤ key a) →
      (l.foldl (fun a x => insertDescBy key x a) acc).Pairwise (fun a b => key b ≤ key a) := by
    intro l
    induction l with
    | nil => exact fun acc h => h
    | cons z zs ih =>
      intro acc h
      exact ih _ (pairwise_insertDescBy key z acc h)
  exact aux l [] List.Pairwise.nil

/-- The head of the descending sort has the maximal key. -/
theorem sortDescBy_head_max (key : α → ℚ) (l : List α) (top : α) (rest : List α)
    (hs : sortDescBy key l = top :: rest) : ∀ p ∈ l, key p ≤ key top := by
  intro p hp
  have hmem : p ∈ top :: rest := by
    rw [← hs, mem_sortDescBy]
    exact hp
  have hpw : (top :: rest).Pairwise (fun a b => key b ≤ key a) := by
    rw [← hs]
    exact pairwise_sortDescBy key l
  rcases List.mem_cons.mp hmem with h | h
  · subst h
    exact le_refl _
  · exact (List.pairwise_cons.mp hpw).1 p h

/-- Dividing a list of rationals termwise distributes over the sum. -/
theorem sum_map_div_listQ (l : List ℚ) (T : ℚ) : (l.map (fun c => c / T)).sum = l.sum / T := by
  induction l with
  | nil => simp
  | cons c cs ih => simp [ih, add_div]

/-- The region counter only produces positive counts. -/
theorem addRegionCount_pos (acc : List (String × ℕ)) (r : String)
    (h : ∀ p ∈ acc, 1 ≤ p.2) : ∀ p ∈ addRegionCount acc r, 1 ≤ p.2 := by
  induction acc with
  | nil =>
    intro p hp
    rcases List.mem_singleton.mp hp with rfl
    exact le_refl 1
  | cons q qs ih =>
    intro p hp
    unfold addRegionCount at hp
    by_cases hq : q.1 == r
    · rcases q with ⟨s, c⟩
      rw [if_pos hq] at hp
      rcases List.mem_cons.mp hp with rfl | hp
      · have := h (s, c) (List.mem_cons_self _ _)
        omega
      · exact h p (List.mem_cons_of_mem _ hp)
    · rcases q with ⟨s, c⟩
      rw [if_neg hq] at hp
      rcases List.mem_cons.mp hp with rfl | hp
      · exact h (s, c) (List.mem_cons_self _ _)
      · exact ih (fun p hp => h p (List.mem_cons_of_mem _ hp)) p hp

/-- Every count of the region histogram is at least 1. -/
theorem geoRegionCounts_pos (observations : List Observation) :
    ∀ p ∈ geoRegionCounts observations, 1 ≤ p.2 := by
  have aux : ∀ (l : List Observation) (acc : List (String × ℕ)),
      (∀ p ∈ acc, 1 ≤ p.2) →
      ∀ p ∈ l.foldl (fun acc o =>
        match o.geojson with
        | some c =>
          match determineRegionFromCoordinates c.lat c.lng with
          | some r => addRegionCount acc r
          | none => acc
        | none => acc) acc, 1 ≤ p.2 := by
    intro l
    induction l with
    | nil => exact fun acc h => h
    | cons o os ih =>
      intro acc h
      rw [List.foldl_cons]
      apply ih
      rcases hg : o.geojson with - | c
      · exact h
      · rcases hr : determineRegionFromCoordinates c.lat c.lng with - | r
        · simp only [hr]
          exact h
        · simp only [hr]
          exact addRegionCount_pos acc r h
  intro p hp
  exact aux observations [] (by intro p hp; cases hp) p hp

/-- Casting the total count to the rationals commutes with summing the
casts. -/
theorem cast_sum_counts (l : List (String × ℕ)) :
    ((l.map Prod.snd).sum : ℚ) = (l.map (fun p => ((p.2 : ℕ) : ℚ))).sum := by
  induction l with
  | nil => simp
  | cons q qs ih => simp only [List.map_cons, List.sum_cons, Nat.cast_add, ih]

/-- Sum of the density fractions over a nonempty positive count list is
exactly 1. -/
theorem geoDensities_sum_one (rc : List (String × ℕ)) (hne : rc ≠ [])
    (hpos : ∀ p ∈ rc, 1 ≤ p.2) : ((geoDensities rc).map Prod.snd).sum = 1 := by
  have hTpos : 1 ≤ (rc.map Prod.snd).sum := by
    rcases rc with - | ⟨q, qs⟩
    · exact absurd rfl hne
    · have hq := hpos q (List.mem_cons_self _ _)
      simp only [List.map_cons, List.sum_cons]
      omega
  have hTne : (((rc.map Prod.snd).sum : ℕ) : ℚ) ≠ 0 := by
    have h0 : (0 : ℚ) < (((rc.map Prod.snd).sum : ℕ) : ℚ) := by
      exact_mod_cast Nat.lt_of_lt_of_le Nat.zero_lt_one hTpos
    linarith
  have key : ∀ (l : List (String × ℕ)) (T : ℚ),
      ((l.map (fun p => (p.1, (p.2 : ℚ) / T))).map Prod.snd).sum =
        (l.map (fun p => ((p.2 : ℕ) : ℚ))).sum / T := by
    intro l T
    induction l with
    | nil => simp
    | cons q qs ih => simp only [List.map_cons, List.sum_cons, ih, add_div]
  unfold geoDensities
  dsimp only
  rw [key, ← cast_sum_counts]
  exact div_self hTne

/-- Branch equation of getTaxonGeographicData: with no establishment
metadata and at least one observation, the histogram branch is taken
and produces the density list with the top-down classification. -/
theorem getTaxonGeographicData_histogram (net : Net) (taxonId : ℕ) (td : Taxon)
    (top : String × ℚ) (rest : List (String × ℚ))
    (hById : net.taxonById taxonId = some td)
    (hNoMeta : td.establishment_means = none)
    (hLen : 0 < (getObservationsByTaxon net taxonId 100).length)
    (hsort : sortDescBy Prod.snd
      (geoDensities (geoRegionCounts (getObservationsByTaxon net taxonId 100))) =
      top :: rest) :
    getTaxonGeographicData net taxonId = Except.ok
      { taxon_id := taxonId,
        scientific_name := jsOrS td.name "",
        common_name := jsOrS td.preferred_common_name "",
        regions := (geoDensities (geoRegionCounts
          (getObservationsByTaxon net taxonId 100))).map Prod.fst,
        mainHabitat := determineHabitatFromTaxonData td,
        density := geoDensities (geoRegionCounts (getObservationsByTaxon net taxonId 100)),
        nativeRegions := top.1 :: (rest.filter (fun p => decide (p.2 > 3/20))).map Prod.fst,
        introducedRegions := (rest.filter
          (fun p => !decide (p.2 > 3/20) && decide (p.2 > 1/20))).map Prod.fst,
        observationPoints := (getObservationsByTaxon net taxonId 100).filterMap
          Observation.geojson } := by
  unfold getTaxonGeographicData
  rw [hById]
  simp [hNoMeta, hLen, hsort]

/-- C9 amended: with no establishment metadata and at least one
observation whose coordinates fall in a continent bucket, the
geographic-data histogram fractions sum to 1; the top-density bucket is
classified native, every other bucket with density above 0.15 is also
native, and every other bucket with density in (0.05, 0.15] is
introduced. -/
theorem geoHistogram_classification (net : Net) (taxonId : ℕ) (td : Taxon)
    (hById : net.taxonById taxonId = some td)
    (hNoMeta : td.establishment_means = none)
    (hCounts : geoRegionCounts (getObservationsByTaxon net taxonId 100) ≠ []) :
    ∃ gd top rest,
      getTaxonGeographicData net taxonId = Except.ok gd ∧
      ((gd.density.map Prod.snd).sum = 1) ∧
      sortDescBy Prod.snd gd.density = top :: rest ∧
      top.1 ∈ gd.nativeRegions ∧
      (∀ p ∈ gd.density, p.2 ≤ top.2) ∧
      (∀ p ∈ rest, p.2 > 3/20 → p.1 ∈ gd.nativeRegions) ∧
      (∀ p ∈ rest, 1/20 < p.2 → p.2 ≤ 3/20 → p.1 ∈ gd.introducedRegions) := by
  have hObsNe : 0 < (getObservationsByTaxon net taxonId 100).length := by
    rcases hO : getObservationsByTaxon net taxonId 100 with - | ⟨o, os⟩
    · exfalso
      apply hCounts
      rw [hO]
      rfl
    · simp
  have hDensNe : geoDensities (geoRegionCounts (getObservationsByTaxon net taxonId 100)) ≠ [] := by
    intro hAbs
    apply hCounts
    unfold geoDensities at hAbs
    exact List.map_eq_nil_iff.mp hAbs
  have hSortNe : sortDescBy Prod.snd
      (geoDensities (geoRegionCounts (getObservationsByTaxon net taxonId 100))) ≠ [] := by
    intro hAbs
    apply hDensNe
    have := length_sortDescBy (Prod.snd (α := String) (β := ℚ))
      (geoDensities (geoRegionCounts (getObservationsByTaxon net taxonId 100)))
    rw [hAbs] at this
    exact List.length_eq_zero.mp this.symm
  rcases hsort : sortDescBy Prod.snd
      (geoDensities (geoRegionCounts (getObservationsByTaxon net taxonId 100)))
    with - | ⟨top, rest⟩
  · exact absurd hsort hSortNe
  refine ⟨_, top, rest,
    getTaxonGeographicData_histogram net taxonId td top rest hById hNoMeta hObsNe hsort,
    ?_, hsort, ?_, ?_, ?_, ?_⟩
  · exact geoDensities_sum_one _ (fun h => hCounts h) (geoRegionCounts_pos _)
  · exact List.mem_cons_self _ _
  · intro p hp
    exact sortDescBy_head_max Prod.snd _ top rest hsort p hp
  · intro p hp hgt
    right
    refine List.mem_map.mpr ⟨p, ?_, rfl⟩
    refine List.mem_filter.mpr ⟨hp, ?_⟩
    simpa using hgt
  · intro p hp h1 h2
    refine List.mem_map.mpr ⟨p, ?_, rfl⟩
    refine List.mem_filter.mpr ⟨hp, ?_⟩
    simp only [Bool.and_eq_true, Bool.not_eq_true', decide_eq_false_iff_not, decide_eq_true_eq]
    constructor
    · linarith
    · exact h1

/-- C9 counterexample: a taxon with no establishment metadata and one
observation — located in the mid-Pacific, inside no continent rectangle
— yields an empty density histogram whose fractions sum to 0, not 1,
although at least one observation is present. -/
theorem geoHistogram_empty_counterexample :
    tC9.establishment_means = none ∧
    (getObservationsByTaxon netC9 42 100).length = 1 ∧
    (getTaxonGeographicData netC9 42).map (fun g => (g.density.map Prod.snd).sum) =
      Except.ok 0 := by
  refine ⟨rfl, by with_unfolding_all rfl, by with_unfolding_all rfl⟩

/-- C9 witness: three bucketed observations (two in Africa, one in
Europe) — the histogram sums to 1 and Africa, the top bucket, is
classified native. -/
theorem geoHistogram_classification_witness :
    ∃ gd top rest,
      getTaxonGeographicData netC9W 43 = Except.ok gd ∧
      ((gd.density.map Prod.snd).sum = 1) ∧
      sortDescBy Prod.snd gd.density = top :: rest ∧
      top.1 ∈ gd.nativeRegions ∧
      (∀ p ∈ gd.density, p.2 ≤ top.2) ∧
      (∀ p ∈ rest, p.2 > 3/20 → p.1 ∈ gd.nativeRegions) ∧
      (∀ p ∈ rest, 1/20 < p.2 → p.2 ≤ 3/20 → p.1 ∈ gd.introducedRegions) := by
  apply geoHistogram_classification netC9W 43 tC9W rfl rfl
  intro hAbs
  have : geoRegionCounts (getObservationsByTaxon netC9W 43 100) =
      [("Africa", 2), ("Europe", 1)] := by
    with_unfolding_all rfl
  rw [this] at hAbs
  cases hAbs
